import Mathlib

/-!
Verification of the schema-driven data-access layer (schema registry,
column resolver, CRUD query builder, mock synthesizer).

The Python sources are shallowly embedded: Python values are modelled by
the inductive `PyVal`, Python dictionaries by insertion-ordered
association lists, exceptions by `Except`, and randomness / wall-clock /
database I/O by explicit oracle structures quantified over in the
theorems.  String primitives are re-implemented over `List Char` so that
every definition evaluates inside the kernel.
-/

/-- Model of a Python runtime value, restricted to the types that flow
through the data-access layer: `None`, `bool`, `int`, `float`
(opaque payload, only its type matters to validation), `str`, `list`,
`tuple`, `dict` (string keys, insertion ordered), and the
`datetime`/`date`/`time` objects (opaque payload). -/
inductive PyVal where
  | vNone
  | vBool (b : Bool)
  | vInt (n : Int)
  | vFloat (payload : Nat)
  | vStr (s : String)
  | vList (xs : List PyVal)
  | vTuple (xs : List PyVal)
  | vDict (fields : List (String × PyVal))
  | vDatetime (iso : String)
  | vDate (iso : String)
  | vTime (iso : String)

/-- Python `type(value).__name__` for the modelled values. -/
def pyTypeName : PyVal → String
  | .vNone => "NoneType"
  | .vBool _ => "bool"
  | .vInt _ => "int"
  | .vFloat _ => "float"
  | .vStr _ => "str"
  | .vList _ => "list"
  | .vTuple _ => "tuple"
  | .vDict _ => "dict"
  | .vDatetime _ => "datetime"
  | .vDate _ => "date"
  | .vTime _ => "time"

/-- Python `isinstance(v, int)` (a `bool` is a subclass of `int`). -/
def isPyInt : PyVal → Bool
  | .vInt _ => true
  | .vBool _ => true
  | _ => false

/-- Python `v is None`. -/
def isNoneVal : PyVal → Bool
  | .vNone => true
  | _ => false

/-- Python `isinstance(v, str)`. -/
def isPyStr : PyVal → Bool
  | .vStr _ => true
  | _ => false

/-- Python `isinstance(v, (int, float))` (a `bool` is a subclass of `int`). -/
def isPyNum : PyVal → Bool
  | .vInt _ => true
  | .vBool _ => true
  | .vFloat _ => true
  | _ => false

/-- Python `isinstance(v, bool)`. -/
def isPyBool : PyVal → Bool
  | .vBool _ => true
  | _ => false

/-- Python `isinstance(v, (str, datetime.datetime, datetime.date, datetime.time))`. -/
def isPyStrOrDatetime : PyVal → Bool
  | .vStr _ => true
  | .vDatetime _ => true
  | .vDate _ => true
  | .vTime _ => true
  | _ => false

/-- Python `isinstance(v, (list, tuple))`. -/
def isPyListOrTuple : PyVal → Bool
  | .vList _ => true
  | .vTuple _ => true
  | _ => false

/-- Elements of a Python list/tuple value (empty for other values). -/
def pyElems : PyVal → List PyVal
  | .vList xs => xs
  | .vTuple xs => xs
  | _ => []

/-- ASCII lowercase of one character, as Python `str.lower` acts on ASCII. -/
def lowerChar (c : Char) : Char :=
  if 'A' ≤ c ∧ c ≤ 'Z' then Char.ofNat (c.toNat + 32) else c

/-- ASCII uppercase of one character, as Python `str.upper` acts on ASCII. -/
def upperChar (c : Char) : Char :=
  if 'a' ≤ c ∧ c ≤ 'z' then Char.ofNat (c.toNat - 32) else c

/-- Python `s.lower()` (kernel-reducible reimplementation). -/
def strLower (s : String) : String := ⟨s.data.map lowerChar⟩

/-- Decides whether the first character list is a leading segment of the second. -/
def listLeads : List Char → List Char → Bool
  | [], _ => true
  | _ :: _, [] => false
  | a :: as, b :: bs => a == b && listLeads as bs

/-- Python `s.startswith(p)` (kernel-reducible). -/
def startsW (s p : String) : Bool := listLeads p.data s.data

/-- Python `s.endswith(p)` (kernel-reducible). -/
def endsW (s p : String) : Bool := listLeads p.data.reverse s.data.reverse

/-- Helper for substring search: does the needle occur at some position of the haystack? -/
def hasSubChars (needle : List Char) : List Char → Bool
  | [] => needle.isEmpty
  | c :: cs => listLeads needle (c :: cs) || hasSubChars needle cs

/-- Python `needle in hay` on strings (kernel-reducible substring test). -/
def strHas (hay needle : String) : Bool := hasSubChars needle.data hay.data

/-- Decimal digit character of `n % 10`. -/
def digitChar (n : Nat) : Char := Char.ofNat (48 + n % 10)

/-- Fuelled decimal expansion; the fuel only bounds the recursion depth so
that the definition is structural and kernel-reducible. -/
def natDigitsAux : Nat → Nat → List Char
  | 0, _ => []
  | fuel + 1, n =>
    if n < 10 then [digitChar n]
    else natDigitsAux fuel (n / 10) ++ [digitChar n]

/-- Decimal digit expansion (most significant first) of a natural number,
matching Python `str(n)` for nonnegative `n` (the fuel `n + 1` always
suffices since the argument shrinks strictly at every step). -/
def natDigits (n : Nat) : List Char := natDigitsAux (n + 1) n

/-- Python `str(n)` for a natural number. -/
def pyStrNat (n : Nat) : String := ⟨natDigits n⟩

/-- Python `str.split('_')` (kernel-reducible, keeps empty segments). -/
def splitUnderscoreChars : List Char → List (List Char)
  | [] => [[]]
  | c :: cs =>
    match splitUnderscoreChars cs with
    | [] => [[]]
    | w :: ws => if c == '_' then [] :: w :: ws else (c :: w) :: ws

/-- Python `str.title()` on a character list; the boolean records whether the
previous character was a letter (letters after a letter are lowercased,
letters after a non-letter are uppercased). -/
def pyTitleChars : List Char → Bool → List Char
  | [], _ => []
  | c :: cs, prevAlpha =>
    (if c.isAlpha then (if prevAlpha then lowerChar c else upperChar c) else c)
      :: pyTitleChars cs c.isAlpha

/-- Python `w.title()` on a string. -/
def pyTitle (w : String) : String := ⟨pyTitleChars w.data false⟩

/-- Embedding of `re.sub(r'(?<!^)(?=[A-Z])', '_', name)`: insert an underscore
in front of every uppercase letter that is not the first character. -/
def underscoreChars : List Char → Bool → List Char
  | [], _ => []
  | c :: cs, first =>
    (if c.isUpper ∧ ¬first then ['_', c] else [c]) ++ underscoreChars cs false

/-- The underscore form of an identifier used by the naming-convention tier:
`re.sub(r'(?<!^)(?=[A-Z])', '_', name).lower()`. -/
def underscoreName (s : String) : String := strLower ⟨underscoreChars s.data true⟩

/-- Joins the underscore-separated words of an identifier into its camel form:
the first word unchanged, every later word passed through `str.title()`. -/
def camelJoin : List (List Char) → Bool → List Char
  | [], _ => []
  | w :: ws, first =>
    (if first then w else pyTitleChars w false) ++ camelJoin ws false

/-- The camel form of an identifier used by the naming-convention tier:
`''.join(w.title() if i > 0 else w for i, w in enumerate(name.split('_')))`. -/
def camelName (s : String) : String := ⟨camelJoin (splitUnderscoreChars s.data) true⟩

/-- The external linguistic collaborator (the `inflect` engine):
`singularNoun` models `p.singular_noun` (`none` models the Python `False`
returned for non-plural words), `pluralize` models `p.plural`. -/
structure Inflect where
  singularNoun : String → Option String
  pluralize : String → String

/-- Python `p.singular_noun(w) or w`: the singular form when `singular_noun`
returns a truthy value, otherwise the word itself. -/
def pySingularOr (inf : Inflect) (w : String) : String :=
  match inf.singularNoun w with
  | some s => if s.isEmpty then w else s
  | none => w

/-- Case-insensitive equality `a.lower() == b.lower()`. -/
def ciEq (a b : String) : Bool := strLower a == strLower b

/-- Errors raised by the CRUD operator, structurally:
`ColumnMatchError`, `ValueError`, and `SchemaError`. -/
inductive DbErr where
  | columnMatchError (column : String) (available : List String)
  | valueError (msg : String)
  | schemaError (msg : String)
deriving DecidableEq, Repr

/-- Hit predicate of the singular/plural tier of `match_column`: the column's
singular form equals the requested singular form case-insensitively, or the
column equals the requested plural form case-insensitively. -/
def pluralTierHit (inf : Inflect) (column_name col : String) : Bool :=
  ciEq (pySingularOr inf col) (pySingularOr inf column_name)
    || ciEq col (inf.pluralize column_name)

/-- Hit predicate of the underscore/camelCase tier of `match_column`: the
underscore forms or the camel forms of the two names coincide. -/
def conventionTierHit (column_name col : String) : Bool :=
  underscoreName col == underscoreName column_name
    || camelName col == camelName column_name

/-- Embedding of `match_column(column_name, available_columns, strict)` from
`db_operator.py`: exact match, then (unless strict) case-insensitive match,
then singular/plural forms, then underscore/camelCase forms, each tier
returning the first matching column, else `ColumnMatchError`. -/
def match_column (inf : Inflect) (column_name : String)
    (available_columns : List String) (strict : Bool) : Except DbErr String :=
  if available_columns.contains column_name then .ok column_name
  else if strict then .error (.columnMatchError column_name available_columns)
  else
    match available_columns.find? (fun col => ciEq col column_name) with
    | some col => .ok col
    | none =>
      match available_columns.find? (fun col => pluralTierHit inf column_name col) with
      | some col => .ok col
      | none =>
        match available_columns.find? (fun col => conventionTierHit column_name col) with
        | some col => .ok col
        | none => .error (.columnMatchError column_name available_columns)

/-- Specification-side resolver, written from the spec's words: the four
tiers (exact, case-insensitive, singular/plural, naming-convention) each
collect all their hits; the first tier with at least one hit wins and its
first hit is returned, without ever continuing to a later tier. -/
def resolveTiersSpec (inf : Inflect) (requested : String)
    (available : List String) : List (List String) :=
  [ if available.contains requested then [requested] else [],
    available.filter (fun col => ciEq col requested),
    available.filter (fun col => pluralTierHit inf requested col),
    available.filter (fun col => conventionTierHit requested col) ]

/-- First element of the first non-empty tier hit list. -/
def firstTierHit : List (List String) → Option String
  | [] => none
  | [] :: rest => firstTierHit rest
  | (c :: _) :: _ => some c

/-- Specification-side `resolve(requested, available, strict=false)`. -/
def resolve_spec (inf : Inflect) (requested : String)
    (available : List String) : Except DbErr String :=
  match firstTierHit (resolveTiersSpec inf requested available) with
  | some col => .ok col
  | none => .error (.columnMatchError requested available)

/-- Trivial inflection collaborator used in concrete instances (treats no
word as plural and pluralizes by appending an s). -/
def inflectTrivial : Inflect :=
  { singularNoun := fun _ => none, pluralize := fun w => w ++ "s" }

/-- Python dictionaries over string keys, insertion ordered. -/
abbrev PyDict := List (String × PyVal)

/-- Python `k in d` for a dictionary. -/
def dictHasKey (d : PyDict) (k : String) : Bool := (List.lookup k d).isSome

/-- Python `d[k] = v`: replace the value in place when the key exists,
otherwise append the binding at the end (insertion order). -/
def dictSet (d : PyDict) (k : String) (v : PyVal) : PyDict :=
  match d with
  | [] => [(k, v)]
  | (k', v') :: rest => if k' == k then (k, v) :: rest else (k', v') :: dictSet rest k v

/-- Python `str(value)` for the scalar values that the operator binds as
query parameters; container values are abbreviated (no claim depends on
the rendering of containers). -/
def pyStr : PyVal → String
  | .vStr s => s
  | .vNone => "None"
  | .vBool true => "True"
  | .vBool false => "False"
  | .vInt n => if n < 0 then "-" ++ pyStrNat n.natAbs else pyStrNat n.natAbs
  | .vFloat p => "float:" ++ pyStrNat p
  | .vDatetime s => s
  | .vDate s => s
  | .vTime s => s
  | .vList _ => "[...]"
  | .vTuple _ => "(...)"
  | .vDict _ => "{...}"

/-- Fuelled worker of Python `s.replace(old, new)` (all occurrences, left
to right); every step consumes at least one character, so fuel equal to
the string length always suffices and the definition stays structural. -/
def replaceAux : Nat → List Char → List Char → List Char → List Char
  | 0, _, _, s => s
  | fuel + 1, needle, repl, s =>
    match s with
    | [] => []
    | c :: cs =>
      if listLeads needle (c :: cs) && !needle.isEmpty then
        repl ++ replaceAux fuel needle repl (List.drop needle.length (c :: cs))
      else c :: replaceAux fuel needle repl cs

/-- Python `s.replace(old, new)` on strings. -/
def strReplace (s old new : String) : String :=
  ⟨replaceAux s.data.length old.data new.data s.data⟩

/-- External collaborator for wall-clock parsing: `fromIso s` models
`datetime.fromisoformat(s)` (`some payload` on success, `none` when the
call raises `ValueError`). -/
structure TimeLib where
  fromIso : String → Option String

namespace DBOperator

/-- Value conversion step of `_format_record`: a string value destined for
a column whose resolved name mentions `created_at` or `updated_at` is
parsed into a datetime (after normalizing a ` +00:00` offset), keeping
the string when parsing raises. -/
def formatValue (tl : TimeLib) (matched_key : String) (value : PyVal) : PyVal :=
  match value with
  | .vStr s =>
    if strHas matched_key "created_at" || strHas matched_key "updated_at" then
      match tl.fromIso (strReplace s " +00:00" "+00:00") with
      | some d => .vDatetime d
      | none => .vStr s
    else .vStr s
  | v => v

/-- Loop body of `_format_record`: resolve each key through `match_column`,
convert values through `formatValue`, skip unknown columns, except that a
record with exactly one key re-raises the `ColumnMatchError`. -/
def formatRecordGo (inf : Inflect) (tl : TimeLib) (recLen : Nat)
    (allowed : List String) : PyDict → PyDict → Except DbErr PyDict
  | [], acc => .ok acc
  | (key, value) :: rest, acc =>
    match match_column inf key allowed false with
    | .ok matched_key =>
      formatRecordGo inf tl recLen allowed rest (dictSet acc matched_key (formatValue tl matched_key value))
    | .error _ =>
      if recLen == 1 then .error (.columnMatchError key allowed)
      else formatRecordGo inf tl recLen allowed rest acc

/-- Embedding of `DBOperator._format_record(record, columns, allowed_columns)`:
returns the pair (formatted record, list of its column names). -/
def format_record (inf : Inflect) (tl : TimeLib) (record : PyDict)
    (columns : Option (List String)) (allowed_columns : List String) :
    Except DbErr (PyDict × List String) :=
  let allowed := if allowed_columns.isEmpty then record.map Prod.fst else allowed_columns
  match formatRecordGo inf tl record.length allowed record [] with
  | .error e => .error e
  | .ok fr =>
    match columns with
    | some cols => .ok (fr.filter (fun kv => cols.contains kv.1), fr.map Prod.fst)
    | none => .ok (fr, fr.map Prod.fst)

/-- External executor/database collaborator: `tableColumns` is the
`information_schema.columns` lookup behind `_get_table_columns` (an empty
list models a missing table), `fetchRow` is `connector.execute(query,
params, fetch_row=True)`. -/
structure Exec where
  tableColumns : String → String → List String
  fetchRow : String → List PyVal → Option PyDict

/-- Embedding of `DBOperator._get_table_columns`: raises `SchemaError`
when the catalog query returns no columns. -/
def get_table_columns (E : DBOperator.Exec) (table schema : String) : Except DbErr (List String) :=
  let cols := E.tableColumns schema table
  if cols.isEmpty then
    .error (.schemaError ("Table " ++ schema ++ "." ++ table ++ " does not exist"))
  else .ok cols

/-- Statement construction part of `DBOperator.insert`: resolves and filters
`data`, fails with `ValueError` when nothing resolves, then builds the
`INSERT` statement (without `RETURNING *`) and its parameter list. -/
def insertQuery (inf : Inflect) (tl : TimeLib) (E : DBOperator.Exec) (table : String)
    (data : PyDict) (schema : String) : Except DbErr (String × List PyVal) := do
  let columns ← get_table_columns E table schema
  let (formatted_data, _) ← format_record inf tl data none columns
  if formatted_data.isEmpty then
    .error (.valueError "No valid columns to insert")
  else
    let column_names := formatted_data.map Prod.fst
    let values := formatted_data.map Prod.snd
    let placeholders := (List.range values.length).map (fun i => "$" ++ pyStrNat (i + 1))
    .ok ("INSERT INTO " ++ schema ++ "." ++ table ++ " (" ++
          String.intercalate ", " column_names ++ ") VALUES (" ++
          String.intercalate ", " placeholders ++ ")", values)

/-- Embedding of `DBOperator.insert` with `returning=True`: builds the
statement and delegates execution to the external executor. -/
def insert (inf : Inflect) (tl : TimeLib) (E : DBOperator.Exec) (table : String)
    (data : PyDict) (schema : String) : Except DbErr (Option PyDict) :=
  match insertQuery inf tl E table data schema with
  | .error e => .error e
  | .ok (q, vs) => .ok (E.fetchRow (q ++ " RETURNING *") vs)

/-- WHERE-clause loop of `DBOperator.update`, kept exactly as in the source:
`i` is the `enumerate` index over all conditions (null-valued ones
included) and a non-null condition is numbered `len(params) + i + 1`. -/
def updateWhereLoop : PyDict → Nat → List String → List PyVal →
    (List String × List PyVal)
  | [], _, wp, ps => (wp, ps)
  | (col, v) :: rest, i, wp, ps =>
    match v with
    | .vNone => updateWhereLoop rest (i + 1) (wp ++ [col ++ " IS NULL"]) ps
    | v =>
      updateWhereLoop rest (i + 1)
        (wp ++ [col ++ " = $" ++ pyStrNat (ps.length + i + 1)]) (ps ++ [v])

/-- Statement construction part of `DBOperator.update`: resolves `data` and
`conditions`, fails with `ValueError` when either resolves to empty, then
builds the `UPDATE` statement (without `RETURNING *`) and its parameters. -/
def updateQuery (inf : Inflect) (tl : TimeLib) (E : DBOperator.Exec) (table : String)
    (data conditions : PyDict) (schema : String) :
    Except DbErr (String × List PyVal) := do
  let columns ← get_table_columns E table schema
  let (formatted_data, _) ← format_record inf tl data none columns
  let (formatted_conditions, _) ← format_record inf tl conditions none columns
  if formatted_data.isEmpty then
    .error (.valueError "No valid columns to update")
  else if formatted_conditions.isEmpty then
    .error (.valueError "No valid conditions for update")
  else
    let set_parts := formatted_data.mapIdx (fun i kv => kv.1 ++ " = $" ++ pyStrNat (i + 1))
    let params0 := formatted_data.map Prod.snd
    let (where_parts, params) := updateWhereLoop formatted_conditions 0 [] params0
    .ok ("UPDATE " ++ schema ++ "." ++ table ++ " SET " ++
          String.intercalate ", " set_parts ++ " WHERE " ++
          String.intercalate " AND " where_parts, params)

/-- Column names whose string values `get_by_uuid` opportunistically parses
as embedded JSON after a successful fetch. -/
def jsonValueKeys : List String := ["metadata", "variables", "content"]

/-- Post-processing loop of `get_by_uuid`: for each column in
`jsonValueKeys` holding a string, replace it by its parsed JSON value,
keeping the raw string when parsing fails; `jl` models `json.loads`
(`none` when it raises `JSONDecodeError`). -/
def getByUuidPost (jl : String → Option PyVal) : PyDict → PyDict
  | [] => []
  | (k, v) :: rest =>
    let v' :=
      match v with
      | .vStr s =>
        if jsonValueKeys.contains k then
          match jl s with
          | some parsed => parsed
          | none => .vStr s
        else .vStr s
      | v => v
    (k, v') :: getByUuidPost jl rest

/-- Embedding of `DBOperator.get_by_uuid`: auto-detects the key column
(`uuid` if present, else `id`) when none is supplied, validates it, binds
`str(uuid_value)` as the single parameter of a direct `SELECT`, and
post-processes the fetched row through `getByUuidPost`. -/
def get_by_uuid (E : DBOperator.Exec) (jl : String → Option PyVal) (table : String)
    (uuid_value : PyVal) (uuid_column : Option String) (schema : String) :
    Except DbErr (Option PyDict) := do
  let columns ← get_table_columns E table schema
  let ucol :=
    match uuid_column with
    | some c => c
    | none => if columns.contains "uuid" then "uuid" else "id"
  if columns.contains ucol then
    let query := "SELECT * FROM " ++ schema ++ "." ++ table ++ " WHERE " ++ ucol ++ " = $1"
    match E.fetchRow query [.vStr (pyStr uuid_value)] with
    | none => .ok none
    | some record => .ok (some (getByUuidPost jl record))
  else .error (.columnMatchError ucol columns)

end DBOperator

/-- Column metadata as extracted into the registry cache:
`type`, `nullable`, `default`, `max_length`. -/
structure ColInfo where
  type : String
  nullable : Bool
  default : Option String
  max_length : Option Nat
deriving DecidableEq

/-- Target of a foreign-key constraint: referenced schema, table, column. -/
structure FkRef where
  schema : String
  table : String
  column : String
deriving DecidableEq

/-- Index metadata: ordered column list and uniqueness flag. -/
structure IndexInfo where
  columns : List String
  unique : Bool
deriving DecidableEq

/-- Cached metadata of one table: column map (catalog ordinal order),
primary keys, foreign keys, indexes. -/
structure TableSchema where
  columns : List (String × ColInfo)
  primary_keys : List String
  foreign_keys : List (String × FkRef)
  indexes : List (String × IndexInfo)
deriving DecidableEq

/-- The nested schema cache `schema -> table -> TableSchema`. -/
abbrev Schemas := List (String × List (String × TableSchema))

/-- Python exceptions crossing the registry interface: `ValueError` and
`RuntimeError` (the registry raises no others). -/
inductive PyErr where
  | valueError (msg : String)
  | runtimeError (msg : String)
deriving DecidableEq, Repr

/-- Message of an exception, Python `str(e)`. -/
def pyErrMsg : PyErr → String
  | .valueError m => m
  | .runtimeError m => m

/-- State of a `SchemaRegistry` instance: configured source, cached
`table_schemas`, and the `initialized` flag. -/
structure Registry where
  schema_source : String
  table_schemas : Schemas
  initialized : Bool

/-- Outcome of the two extraction strategies, modelled abstractly because
both `_load_schema_from_db` and `_load_schema_from_file` perform I/O: an
`Except` carrying either the extracted schemas or the full message of the
exception the loader raises (`RuntimeError` for the database strategy,
`ValueError` for the file strategy). -/
structure SchemaEnv where
  dbResult : Except String Schemas
  fileResult : Except String Schemas

/-- Embedding of `SchemaRegistry.initialize`: a no-op when already
initialized, otherwise runs the extraction selected by `schema_source`
and sets the flag.  The boolean result instruments whether an extraction
pass was performed. -/
def initializeE (env : SchemaEnv) (r : Registry) : Except PyErr (Registry × Bool) :=
  if r.initialized then .ok (r, false)
  else if r.schema_source == "db" then
    match env.dbResult with
    | .ok ss => .ok ({ r with table_schemas := ss, initialized := true }, true)
    | .error m => .error (.runtimeError m)
  else if r.schema_source == "file" then
    match env.fileResult with
    | .ok ss => .ok ({ r with table_schemas := ss, initialized := true }, true)
    | .error m => .error (.valueError m)
  else .error (.valueError ("Unsupported schema source: " ++ r.schema_source))

/-- Embedding of `SchemaRegistry.get_table_schema`: initializes on demand,
then looks up schema and table, raising `ValueError` for a missing one.
Returns the possibly-updated registry alongside the table metadata. -/
def get_table_schema (env : SchemaEnv) (r : Registry) (schema table : String) :
    Except PyErr (Registry × TableSchema) :=
  match initializeE env r with
  | .error e => .error e
  | .ok (r1, _) =>
    match List.lookup schema r1.table_schemas with
    | none => .error (.valueError ("Schema '" ++ schema ++ "' not found in schema registry"))
    | some tables =>
      match List.lookup table tables with
      | none => .error (.valueError ("Table '" ++ table ++ "' not found in schema '" ++ schema ++ "'"))
      | some tbl => .ok (r1, tbl)

/-- Python truthiness of the cached `default` expression (`None` and the
empty string are falsy). -/
def pyTruthyOptStr : Option String → Bool
  | none => false
  | some s => !s.isEmpty

/-- Python `str(col_info["default"])` (`str(None)` is `"None"`). -/
def optStrRepr : Option String → String
  | none => "None"
  | some s => s

/-- A column is auto-generated when its default is truthy and mentions
`nextval` or `gen_random_uuid`. -/
def is_auto_generated (ci : ColInfo) : Bool :=
  pyTruthyOptStr ci.default &&
    (strHas (optStrRepr ci.default) "nextval" || strHas (optStrRepr ci.default) "gen_random_uuid")

/-- A column is required by `validate_insert_data` when it is not nullable,
has a falsy default, and is not auto-generated. -/
def isRequiredCol (ci : ColInfo) : Bool :=
  !ci.nullable && !pyTruthyOptStr ci.default && !is_auto_generated ci

/-- Type-family tests of `_validate_data_type`, in source order. -/
def intTypeFam (dt : String) : Bool :=
  dt == "integer" || dt == "smallint" || dt == "bigint" || dt == "int"

/-- Character/text family: `startswith('character')`, `startswith('varchar')`, or `text`. -/
def textTypeFam (dt : String) : Bool :=
  startsW dt "character" || startsW dt "varchar" || dt == "text"

/-- Numeric family of `_validate_data_type`. -/
def numTypeFam (dt : String) : Bool :=
  dt == "numeric" || dt == "decimal" || dt == "real" || dt == "double precision" || dt == "float"

/-- Timestamp family of `_validate_data_type`. -/
def tsTypeFam (dt : String) : Bool :=
  dt == "timestamp" || dt == "date" || dt == "time"

/-- JSON family of `_validate_data_type`. -/
def jsonTypeFam (dt : String) : Bool :=
  dt == "jsonb" || dt == "json"

/-- Python `data_type[:-2]`, the element type of an array type. -/
def baseType (dt : String) : String := ⟨dt.data.dropLast.dropLast⟩

mutual

/-- Type name of the first value inside `v` (depth-first, dictionary values
in insertion order) on which `json.dumps` raises `TypeError`; `none` when
`v` is JSON-serializable. -/
def firstUnserializable : PyVal → Option String
  | .vNone => none
  | .vBool _ => none
  | .vInt _ => none
  | .vFloat _ => none
  | .vStr _ => none
  | .vList xs => firstUnserializableList xs
  | .vTuple xs => firstUnserializableList xs
  | .vDict fs => firstUnserializableFields fs
  | .vDatetime s => some (pyTypeName (.vDatetime s))
  | .vDate s => some (pyTypeName (.vDate s))
  | .vTime s => some (pyTypeName (.vTime s))

/-- First unserializable element of a list value. -/
def firstUnserializableList : List PyVal → Option String
  | [] => none
  | v :: vs =>
    match firstUnserializable v with
    | some t => some t
    | none => firstUnserializableList vs

/-- First unserializable value of a dictionary value. -/
def firstUnserializableFields : List (String × PyVal) → Option String
  | [] => none
  | (_, v) :: fs =>
    match firstUnserializable v with
    | some t => some t
    | none => firstUnserializableFields fs

end

/-- Hexadecimal digit, case-insensitive, as in the UUID regex. -/
def isHexCI (c : Char) : Bool :=
  ('0' ≤ c && c ≤ '9') || ('a' ≤ c && c ≤ 'f') || ('A' ≤ c && c ≤ 'F')

/-- Consume exactly `n` hexadecimal characters. -/
def hexRun : Nat → List Char → Option (List Char)
  | 0, cs => some cs
  | _ + 1, [] => none
  | n + 1, c :: cs => if isHexCI c then hexRun n cs else none

/-- Consume one dash. -/
def dashNext : List Char → Option (List Char)
  | '-' :: cs => some cs
  | _ => none

/-- Embedding of `re.match(r'^[0-9a-f]{8}-[0-9a-f]{4}-[0-9a-f]{4}-[0-9a-f]{4}-[0-9a-f]{12}$', value, re.I)`:
8-4-4-4-12 hexadecimal groups separated by dashes (a `$` anchor also
accepts one trailing newline). -/
def isUuidFormat (s : String) : Bool :=
  match hexRun 8 s.data >>= dashNext >>= hexRun 4 >>= dashNext >>= hexRun 4 >>=
      dashNext >>= hexRun 4 >>= dashNext >>= hexRun 12 with
  | some [] => true
  | some ['\n'] => true
  | _ => false

/-- Python rendering of the inner error message inside an f-string. -/
def optMsgStr : Option String → String
  | some s => s
  | none => "None"

mutual

/-- Embedding of `SchemaRegistry._validate_data_type(value, data_type,
max_length)`: the elif chain over the PostgreSQL type families, in source
order, including the internal try/except that converts a `json.dumps`
`TypeError` into a `(False, message)` result; unknown types are accepted. -/
def validate_data_type (v : PyVal) (data_type : String) (max_length : Option Nat) :
    Bool × Option String :=
  if intTypeFam data_type then
    if !isPyInt v then (false, some ("Expected integer, got " ++ pyTypeName v)) else (true, none)
  else if textTypeFam data_type then
    if !isPyStr v then (false, some ("Expected string, got " ++ pyTypeName v))
    else
      match max_length, v with
      | some m, .vStr s =>
        if m ≠ 0 && s.length > m then
          (false, some ("String exceeds maximum length of " ++ pyStrNat m))
        else (true, none)
      | _, _ => (true, none)
  else if numTypeFam data_type then
    if !isPyNum v then (false, some ("Expected number, got " ++ pyTypeName v)) else (true, none)
  else if data_type == "boolean" then
    if !isPyBool v then (false, some ("Expected boolean, got " ++ pyTypeName v)) else (true, none)
  else if tsTypeFam data_type then
    if !isPyStrOrDatetime v then
      (false, some ("Expected timestamp/date/time, got " ++ pyTypeName v))
    else (true, none)
  else if jsonTypeFam data_type then
    match firstUnserializable v with
    | some tn => (false, some ("Object of type " ++ tn ++ " is not JSON serializable"))
    | none => (true, none)
  else if data_type == "uuid" then
    if !isPyStr v then (false, some ("Expected string for UUID, got " ++ pyTypeName v))
    else
      match v with
      | .vStr s => if !isUuidFormat s then (false, some ("Invalid UUID format: " ++ s)) else (true, none)
      | _ => (true, none)
  else if endsW data_type "[]" then
    match v with
    | .vList xs => if xs.isEmpty then (true, none) else validateArrayElems xs (baseType data_type)
    | .vTuple xs => if xs.isEmpty then (true, none) else validateArrayElems xs (baseType data_type)
    | _ => (false, some ("Expected array, got " ++ pyTypeName v))
  else (true, none)

/-- Element loop of the array branch of `_validate_data_type`. -/
def validateArrayElems (items : List PyVal) (base : String) : Bool × Option String :=
  match items with
  | [] => (true, none)
  | item :: rest =>
    let (item_valid, item_error) := validate_data_type item base none
    if !item_valid then (false, some ("Array element invalid: " ++ optMsgStr item_error))
    else validateArrayElems rest base

end

/-- First non-nullable, default-less, non-auto-generated column of the
table missing from `data` (the first loop of `validate_insert_data`). -/
def requiredColMissing (data : PyDict) : List (String × ColInfo) → Option String
  | [] => none
  | (name, ci) :: rest =>
    if isRequiredCol ci && !dictHasKey data name then some name
    else requiredColMissing data rest

/-- Second loop of `validate_insert_data`: per-key unknown-column check,
null/nullable check, then `_validate_data_type`. -/
def validateValuesLoop (columns : List (String × ColInfo)) : PyDict → Bool × Option String
  | [] => (true, none)
  | (col_name, value) :: rest =>
    match List.lookup col_name columns with
    | none => (false, some ("Unknown column: " ++ col_name))
    | some ci =>
      if isNoneVal value then
        if !ci.nullable then (false, some ("Column " ++ col_name ++ " cannot be null"))
        else validateValuesLoop columns rest
      else
        let r := validate_data_type value ci.type ci.max_length
        if !r.1 then (false, some ("Invalid value for column " ++ col_name ++ ": " ++ optMsgStr r.2))
        else validateValuesLoop columns rest

/-- Embedding of `SchemaRegistry.validate_insert_data(schema, table, data)`:
missing-required-column check, then per-value checks; a `ValueError`
raised by `get_table_schema` is caught and converted into a
`(False, message)` result, other exceptions propagate. -/
def validate_insert_data (env : SchemaEnv) (r : Registry) (schema table : String)
    (data : PyDict) : Except PyErr (Bool × Option String) :=
  match get_table_schema env r schema table with
  | .error (.valueError m) => .ok (false, some m)
  | .error e => .error e
  | .ok (_, tbl) =>
    match requiredColMissing data tbl.columns with
    | some col => .ok (false, some ("Missing required column: " ++ col))
    | none => .ok (validateValuesLoop tbl.columns data)

/-- JSON encoding of an optional string (`None` or a string). -/
def encodeOptStr : Option String → PyVal
  | none => .vNone
  | some s => .vStr s

/-- JSON encoding of an optional natural number (`None` or an int). -/
def encodeOptNat : Option Nat → PyVal
  | none => .vNone
  | some n => .vInt n

/-- The dictionary the registry cache holds for one column. -/
def encodeColInfo (ci : ColInfo) : PyVal :=
  .vDict [("type", .vStr ci.type), ("nullable", .vBool ci.nullable),
          ("default", encodeOptStr ci.default), ("max_length", encodeOptNat ci.max_length)]

/-- The dictionary the registry cache holds for one foreign key. -/
def encodeFkRef (fk : FkRef) : PyVal :=
  .vDict [("schema", .vStr fk.schema), ("table", .vStr fk.table), ("column", .vStr fk.column)]

/-- The dictionary the registry cache holds for one index. -/
def encodeIndexInfo (ix : IndexInfo) : PyVal :=
  .vDict [("columns", .vList (ix.columns.map .vStr)), ("unique", .vBool ix.unique)]

/-- The dictionary the registry cache holds for one table, with the key
order in which the extraction strategies build it. -/
def encodeTableSchema (t : TableSchema) : PyVal :=
  .vDict [("columns", .vDict (t.columns.map fun kv => (kv.1, encodeColInfo kv.2))),
          ("primary_keys", .vList (t.primary_keys.map .vStr)),
          ("foreign_keys", .vDict (t.foreign_keys.map fun kv => (kv.1, encodeFkRef kv.2))),
          ("indexes", .vDict (t.indexes.map fun kv => (kv.1, encodeIndexInfo kv.2)))]

/-- The nested dictionary `schema -> table -> table dictionary` that is the
Python value of `registry.table_schemas`. -/
def encodeSchemas (ss : Schemas) : PyVal :=
  .vDict (ss.map fun st =>
    (st.1, .vDict (st.2.map fun tt => (tt.1, encodeTableSchema tt.2))))

mutual

/-- Value-level model of `json.dumps(..., default=str)` composed with
`json.loads`: serializable scalars and containers come back unchanged
except that tuples become lists, and a non-serializable leaf is replaced
by its `str()` form. -/
def jsonDumpsVal : PyVal → PyVal
  | .vNone => .vNone
  | .vBool b => .vBool b
  | .vInt n => .vInt n
  | .vFloat p => .vFloat p
  | .vStr s => .vStr s
  | .vList xs => .vList (jsonDumpsValList xs)
  | .vTuple xs => .vList (jsonDumpsValList xs)
  | .vDict fs => .vDict (jsonDumpsValFields fs)
  | .vDatetime s => .vStr s
  | .vDate s => .vStr s
  | .vTime s => .vStr s

/-- List part of `jsonDumpsVal`. -/
def jsonDumpsValList : List PyVal → List PyVal
  | [] => []
  | v :: vs => jsonDumpsVal v :: jsonDumpsValList vs

/-- Dictionary part of `jsonDumpsVal`. -/
def jsonDumpsValFields : List (String × PyVal) → List (String × PyVal)
  | [] => []
  | (k, v) :: fs => (k, jsonDumpsVal v) :: jsonDumpsValFields fs

end

/-- Embedding of `SchemaRegistry.to_json()` at the JSON-document level:
initialize on demand, then serialize the cache with `default=str`. -/
def to_jsonVal (env : SchemaEnv) (r : Registry) : Except PyErr PyVal :=
  match initializeE env r with
  | .error e => .error e
  | .ok (r1, _) => .ok (jsonDumpsVal (encodeSchemas r1.table_schemas))

/-- State of a registry produced by `SchemaRegistry.from_json`: the cache is
whatever JSON document was supplied, and the instance is marked
initialized without any extraction. -/
structure RegistryJ where
  table_schemas : PyVal
  initialized : Bool

/-- Embedding of `SchemaRegistry.from_json(json_data)`. -/
def from_json (j : PyVal) : RegistryJ :=
  { table_schemas := j, initialized := true }

/-- Dictionary lookup on a JSON document (`none` for a missing key or a
non-dictionary document). -/
def dictGetJ (v : PyVal) (k : String) : Option PyVal :=
  match v with
  | .vDict fs => List.lookup k fs
  | _ => none

/-- Embedding of `get_table_schema` on a `from_json`-produced registry
(such a registry is always marked initialized, so no extraction runs). -/
def get_table_schemaJ (rj : RegistryJ) (schema table : String) : Except PyErr PyVal :=
  if !rj.initialized then .error (.valueError "Unsupported schema source: json")
  else
    match dictGetJ rj.table_schemas schema with
    | none => .error (.valueError ("Schema '" ++ schema ++ "' not found in schema registry"))
    | some tables =>
      match dictGetJ tables table with
      | none => .error (.valueError ("Table '" ++ table ++ "' not found in schema '" ++ schema ++ "'"))
      | some tbl => .ok tbl

/-- Randomness and wall-clock oracle for the mock synthesizer: `rand` is an
arbitrary entropy stream indexed by draw counter, and the `now*` fields
are the ISO strings `datetime.now()` would render. -/
structure Oracle where
  rand : Nat → Nat
  nowIso : String
  nowDateIso : String
  nowTimeIso : String

/-- Python `random.randint(lo, hi)` fed from draw `k` of the stream:
always lands in `[lo, hi]` for `lo ≤ hi`. -/
def randint (o : Oracle) (k lo hi : Nat) : Nat := lo + o.rand k % (hi - lo + 1)

/-- Python `random.choice(xs)` fed from one draw (the default is never
used: every call site passes a non-empty literal list). -/
def pyChoice {α : Type} (xs : List α) (d : α) (r : Nat) : α := xs.getD (r % xs.length) d

/-- One lowercase hexadecimal digit of a UUID rendering. -/
def hexCharOf (r : Nat) : Char := pyChoice "0123456789abcdef".data '0' r

/-- A run of `n` hexadecimal digits taken from draws `k, k+1, ...`. -/
def hexDigitsRun (o : Oracle) (k n : Nat) : List Char :=
  (List.range n).map fun i => hexCharOf (o.rand (k + i))

/-- Model of `str(uuid.uuid4())`: lowercase hexadecimal 8-4-4-4-12 groups
separated by dashes, consuming 32 draws. -/
def mkUuid (o : Oracle) (k : Nat) : String :=
  ⟨hexDigitsRun o k 8 ++ '-' :: (hexDigitsRun o (k + 8) 4 ++ '-' ::
    (hexDigitsRun o (k + 12) 4 ++ '-' :: (hexDigitsRun o (k + 16) 4 ++ '-' ::
      hexDigitsRun o (k + 20) 12)))⟩

/-- Python `x or d` for the optional `max_length` (`None` and `0` are falsy). -/
def pyOrNat : Option Nat → Nat → Nat
  | none, d => d
  | some 0, d => d
  | some n, _ => n

/-- Python `random.choices('abcdefghijklmnopqrstuvwxyz', k=n)` (an empty
list when the requested count is not positive, as in Python). -/
def lcChars (o : Oracle) (k n : Nat) : List Char :=
  (List.range n).map fun i => pyChoice "abcdefghijklmnopqrstuvwxyz".data 'a' (o.rand (k + i))

/-- Embedding of `SchemaRegistry._generate_mock_scalar_value(data_type,
max_length)`, threading the draw counter. -/
def generate_mock_scalar_value (o : Oracle) (k : Nat) (data_type : String)
    (max_length : Option Nat) : PyVal × Nat :=
  if intTypeFam data_type then (.vInt (randint o k 1 1000), k + 1)
  else if textTypeFam data_type then
    let length := min (pyOrNat max_length 10) 10
    (.vStr ⟨lcChars o k length⟩, k + length)
  else if numTypeFam data_type then (.vFloat (o.rand k), k + 1)
  else if data_type == "boolean" then (.vBool (pyChoice [true, false] true (o.rand k)), k + 1)
  else if data_type == "uuid" then (.vStr (mkUuid o k), k + 32)
  else (.vStr ("mock-" ++ data_type ++ "-value"), k)

/-- Element loop of the array branch of `_generate_mock_value`. -/
def genArrayElems (o : Oracle) (base : String) : Nat → Nat → List PyVal × Nat
  | 0, k => ([], k)
  | n + 1, k =>
    let r := generate_mock_scalar_value o k base none
    let rest := genArrayElems o base n r.2
    (r.1 :: rest.1, rest.2)

/-- Embedding of `SchemaRegistry._generate_mock_value(col_name, col_info,
table_schema)`: foreign-key shape first, then the name-hint heuristics in
source order, then the declared-type fallbacks. -/
def generate_mock_value (o : Oracle) (k : Nat) (col_name : String) (ci : ColInfo)
    (tbl : TableSchema) : PyVal × Nat :=
  let data_type := ci.type
  let name_lower := strLower col_name
  match List.lookup col_name tbl.foreign_keys with
  | some fk => (.vStr ("mock-" ++ fk.table ++ "-ref-" ++ pyStrNat (randint o k 1000 9999)), k + 1)
  | none =>
    if name_lower == "id" || endsW name_lower "_id" then
      if data_type == "uuid" then (.vStr (mkUuid o k), k + 32)
      else (.vInt (randint o k 1000 9999), k + 1)
    else if strHas name_lower "name" then
      (.vStr (pyChoice ["Test", "Mock", "Sample", "Demo", "Example"] "Test" (o.rand k)
        ++ " " ++ pyTitle col_name), k + 1)
    else if strHas name_lower "date" || strHas name_lower "time" ||
        strHas name_lower "created" || strHas name_lower "updated" then
      if data_type == "date" then (.vStr o.nowDateIso, k)
      else if data_type == "time" then (.vStr o.nowTimeIso, k)
      else (.vStr o.nowIso, k)
    else if strHas name_lower "status" then
      (.vStr (pyChoice ["active", "inactive", "pending", "completed"] "active" (o.rand k)), k + 1)
    else if strHas name_lower "email" then
      let n := randint o k 1000 9999
      let dom := pyChoice ["example.com", "test.org", "mock.net", "sample.io"] "example.com" (o.rand (k + 1))
      (.vStr ("mock.user." ++ pyStrNat n ++ "@" ++ dom), k + 2)
    else if strHas name_lower "url" || strHas name_lower "link" || strHas name_lower "website" then
      let dom := pyChoice ["example.com", "test.org", "mock.net", "sample.io"] "example.com" (o.rand k)
      let path := pyChoice ["home", "about", "contact", "product", "service"] "home" (o.rand (k + 1))
      (.vStr ("https://" ++ dom ++ "/" ++ path), k + 2)
    else if intTypeFam data_type then (.vInt (randint o k 1 1000), k + 1)
    else if textTypeFam data_type then
      let length := min (pyOrNat ci.max_length 50) 50
      let cnt := length - (col_name.length + 6)
      (.vStr ("mock-" ++ col_name ++ "-" ++ ⟨lcChars o k cnt⟩), k + cnt)
    else if numTypeFam data_type then (.vFloat (o.rand k), k + 1)
    else if data_type == "boolean" then (.vBool (pyChoice [true, false] true (o.rand k)), k + 1)
    else if jsonTypeFam data_type then
      (.vDict [("mock", .vBool true), ("field", .vStr ("mock-" ++ col_name)),
               ("value", .vInt (randint o k 1 100)),
               ("active", .vBool (pyChoice [true, false] true (o.rand (k + 1))))], k + 2)
    else if data_type == "uuid" then (.vStr (mkUuid o k), k + 32)
    else if endsW data_type "[]" then
      let count := randint o k 1 3
      let r := genArrayElems o (baseType data_type) count (k + 1)
      (.vList r.1, r.2)
    else (.vStr ("mock-" ++ col_name), k)

/-- Column loop of `SchemaRegistry.generate_mock_data`: skip columns
already present (overrides) and auto-generated columns, synthesize the
rest in catalog order. -/
def generateMockDataLoop (o : Oracle) (tbl : TableSchema) :
    List (String × ColInfo) → PyDict → Nat → PyDict
  | [], acc, _ => acc
  | (col_name, ci) :: rest, acc, k =>
    if dictHasKey acc col_name then generateMockDataLoop o tbl rest acc k
    else if is_auto_generated ci then generateMockDataLoop o tbl rest acc k
    else
      let r := generate_mock_value o k col_name ci tbl
      generateMockDataLoop o tbl rest (dictSet acc col_name r.1) r.2

/-- Embedding of `SchemaRegistry.generate_mock_data(schema, table,
override_values)` (exceptions from `get_table_schema` propagate). -/
def generate_mock_data (env : SchemaEnv) (r : Registry) (schema table : String)
    (override_values : Option PyDict) (o : Oracle) : Except PyErr (Registry × PyDict) :=
  match get_table_schema env r schema table with
  | .error e => .error e
  | .ok (r1, tbl) =>
    let mock0 := match override_values with | some ov => ov | none => []
    .ok (r1, generateMockDataLoop o tbl tbl.columns mock0 0)

/-- Embedding of `MockDataGenerator.generate_row(schema, table,
override_values)`: the whole body runs under `try/except Exception`, and
any internal error is converted into a dictionary carrying the
`mock_error` marker with the message. -/
def generate_row (env : SchemaEnv) (r : Registry) (schema table : String)
    (override_values : Option PyDict) (o : Oracle) : PyDict :=
  match generate_mock_data env r schema table override_values o with
  | .error e => [("mock_error", .vStr (pyErrMsg e))]
  | .ok (r1, mock_data) =>
    match validate_insert_data env r1 schema table mock_data with
    | .error e => [("mock_error", .vStr (pyErrMsg e))]
    | .ok _ => mock_data

/-- Length admissibility for the mock/validation pair: any string of length
up to `bound` passes the `max_length` check (`None` and `0` are falsy and
disable the check). -/
def mlAtLeast (ml : Option Nat) (bound : Nat) : Bool :=
  match ml with
  | none => true
  | some 0 => true
  | some m => bound ≤ m

/-- A declared type that matches none of the recognized families: both the
synthesizer and the validator fall through to their permissive default on
such a type. -/
def unknownTypeT (dt : String) : Bool :=
  !intTypeFam dt && !textTypeFam dt && !numTypeFam dt && !(dt == "boolean") &&
  !tsTypeFam dt && !jsonTypeFam dt && !(dt == "uuid") && !endsW dt "[]"

/-- Declared types accepting an arbitrary synthesized string of length at
most `bound`: character types with admissible `max_length`, the timestamp
family (strings accepted), the JSON family (strings serializable), and
unknown types (accepted unconditionally). -/
def strCompatT (dt : String) (ml : Option Nat) (bound : Nat) : Bool :=
  (textTypeFam dt && mlAtLeast ml bound) || tsTypeFam dt || jsonTypeFam dt || unknownTypeT dt

/-- Mock-compatibility of one column: a sufficient, decidable condition on
`(column name, column metadata, table)` under which every value
`_generate_mock_value` can synthesize for the column passes
`_validate_data_type` against the column's own declared type and
`max_length`.  The branches mirror the synthesizer's branch order;
in particular a foreign-key column must accept a reference-looking
string, which an integer-typed foreign key does not. -/
def mockCompatibleCol (tbl : TableSchema) (col_name : String) (ci : ColInfo) : Bool :=
  let dt := ci.type
  let ml := ci.max_length
  let nl := strLower col_name
  match List.lookup col_name tbl.foreign_keys with
  | some fk => strCompatT dt ml (14 + fk.table.length)
  | none =>
    if nl == "id" || endsW nl "_id" then
      dt == "uuid" || intTypeFam dt || numTypeFam dt || jsonTypeFam dt || unknownTypeT dt
    else if strHas nl "name" then strCompatT dt ml (col_name.length + 8)
    else if strHas nl "date" || strHas nl "time" || strHas nl "created" || strHas nl "updated" then
      tsTypeFam dt || jsonTypeFam dt || unknownTypeT dt || (textTypeFam dt && ml == none)
    else if strHas nl "status" then strCompatT dt ml 9
    else if strHas nl "email" then strCompatT dt ml 26
    else if strHas nl "url" || strHas nl "link" || strHas nl "website" then strCompatT dt ml 27
    else if intTypeFam dt then true
    else if textTypeFam dt then
      match ml with
      | none => true
      | some 0 => true
      | some m => col_name.length + 6 ≤ m
    else if numTypeFam dt then true
    else if dt == "boolean" then true
    else if jsonTypeFam dt then true
    else if dt == "uuid" then true
    else if endsW dt "[]" then !endsW (baseType dt) "[]"
    else true

namespace DBOperator

/-- Specification-side accumulation of the keys `insert` ends up writing:
each key of `data` is resolved through the resolver and kept (resolution
failures are dropped), with dictionary semantics on the resolved names. -/
def resolvedKeysFold (inf : Inflect) (allowed : List String) (data : PyDict)
    (start : List String) : List String :=
  data.foldl (fun acc kv =>
    match match_column inf kv.1 allowed false with
    | .ok k' => if acc.contains k' then acc else acc ++ [k']
    | .error _ => acc) start

/-- Specification-side description of which keys `insert` ends up writing. -/
def resolvedKeysSpec (inf : Inflect) (allowed : List String) (data : PyDict) : List String :=
  resolvedKeysFold inf allowed data []

/-- Specification-side value fold of `_format_record` (the dictionary it
produces when no key failure aborts it). -/
def formatFoldSpec (inf : Inflect) (tl : TimeLib) (allowed : List String)
    (data : PyDict) (start : PyDict) : PyDict :=
  data.foldl (fun acc kv =>
    match match_column inf kv.1 allowed false with
    | .ok k' => dictSet acc k' (formatValue tl k' kv.2)
    | .error _ => acc) start

end DBOperator

/-- Concrete inflection collaborator for the C3 example, under which the
column `user_names` also satisfies the plural tier for the request
`UserName` (its singular form is `username`). -/
def inflectClaimEx : Inflect :=
  { singularNoun := fun w => if w == "user_names" then some "username" else none,
    pluralize := fun w => w ++ "s" }

/-- Time collaborator whose ISO parsing always fails (keeps strings as
strings; no concrete instance below feeds timestamp strings). -/
def timeLibTrivial : TimeLib := { fromIso := fun _ => none }

/-- Executor over a three-column table `a, b, c`, never returning rows. -/
def execAbc : DBOperator.Exec :=
  { tableColumns := fun _ _ => ["a", "b", "c"], fetchRow := fun _ _ => none }

/-- Deterministic oracle: the entropy stream is constantly zero and the
clock strings are fixed. -/
def oracleZero : Oracle :=
  { rand := fun _ => 0, nowIso := "2025-01-01T00:00:00",
    nowDateIso := "2025-01-01", nowTimeIso := "00:00:00" }

/-- Schema environment whose both extraction strategies fail (used with
already-initialized registries, where it is never consulted). -/
def envUnreachable : SchemaEnv :=
  { dbResult := .error "Failed to load schema from database: unreachable",
    fileResult := .error "Failed to parse schema file: unreachable" }

/-- Specification-side description of the opportunistic JSON parsing of
`get_by_uuid`: a column named `metadata`, `variables` or `content` that
holds a string is replaced by its parsed JSON value, keeping the raw
string when parsing fails; every other column is untouched. -/
def jsonParseSpec (jl : String → Option PyVal) (kv : String × PyVal) : String × PyVal :=
  (kv.1,
    match kv.2 with
    | .vStr s =>
      if kv.1 ∈ DBOperator.jsonValueKeys then
        match jl s with
        | some parsed => parsed
        | none => .vStr s
      else .vStr s
    | v => v)

/-- Executor over a table with a `uuid` column whose fetch returns a fixed
row holding a parsable `metadata` string and an unparsable `content`
string. -/
def execUuidTbl : DBOperator.Exec :=
  { tableColumns := fun _ _ => ["uuid", "metadata", "content"],
    fetchRow := fun _ _ =>
      some [("uuid", .vStr "u1"), ("metadata", .vStr "{}"),
            ("content", .vStr "notjson"), ("other", .vStr "raw")] }

/-- Executor over a table with an `id` column and no `uuid` column, whose
fetch finds nothing. -/
def execIdTbl : DBOperator.Exec :=
  { tableColumns := fun _ _ => ["id", "x"], fetchRow := fun _ _ => none }

/-- Example `json.loads` collaborator: parses only the empty object. -/
def jlEx : String → Option PyVal := fun s => if s == "{}" then some (.vDict []) else none

/-- Shorthand constructor for column metadata. -/
def mkCol (t : String) (nl : Bool) (d : Option String) (ml : Option Nat) : ColInfo :=
  ⟨t, nl, d, ml⟩

/-- Shorthand constructor for table metadata. -/
def mkTable (cols : List (String × ColInfo)) (pks : List String)
    (fks : List (String × FkRef)) (idx : List (String × IndexInfo)) : TableSchema :=
  ⟨cols, pks, fks, idx⟩

/-- Schema environment whose database strategy succeeds with a one-schema
catalog. -/
def envDbOk : SchemaEnv :=
  { dbResult := .ok [("s", [("t", mkTable [("a", mkCol "integer" false none none)] ["a"] [] [])])],
    fileResult := .error "Failed to parse schema file: unused" }

/-- A fresh database-sourced registry before initialization. -/
def regFreshDb : Registry :=
  { schema_source := "db", table_schemas := [], initialized := false }

/-- An initialized registry with an empty cache (no schemas). -/
def regEmptyInit : Registry :=
  { schema_source := "db", table_schemas := [], initialized := true }

/-- Concrete initialized registry with a primary key, a foreign key and a
unique index, used to witness the serialization round trip. -/
def regC6 : Registry :=
  { schema_source := "db",
    table_schemas := [("s", [("t", mkTable
        [("id", mkCol "uuid" false (some "gen_random_uuid()") none),
         ("ref", mkCol "text" false none (some 64))]
        ["id"]
        [("ref", ⟨"s", "parent", "id"⟩)]
        [("t_pkey", ⟨["id"], true⟩)])])],
    initialized := true }

/-- Concrete registry for the validation claims: table `s.t` with a
required integer column `a` and a nullable text column `b`. -/
def regC5 : Registry :=
  { schema_source := "db",
    table_schemas := [("s", [("t", mkTable
        [("a", mkCol "integer" false none none),
         ("b", mkCol "text" true none none)]
        ["a"] [] [])])],
    initialized := true }

/-- Concrete initialized registry refuting the universal synthesis-validity
claim: table `s.t` has a single required foreign-key column `ref_col`
whose declared type is `integer`. -/
def regFkInt : Registry :=
  { schema_source := "db",
    table_schemas := [("s", [("t", mkTable
        [("ref_col", mkCol "integer" false none none)]
        [] [("ref_col", ⟨"s", "parent", "id"⟩)] [])])],
    initialized := true }

/-- Concrete initialized registry exercising the synthesizer's main
branches (auto-generated key, textual foreign key, name hint, integer,
boolean, JSON, array, timestamp hint, email hint) on a mock-compatible
table, used to witness the amended synthesis-validity theorem. -/
def tblC1 : TableSchema :=
  mkTable
    [("id", mkCol "uuid" false (some "gen_random_uuid()") none),
     ("ref", mkCol "text" false none (some 64)),
     ("username", mkCol "text" false none (some 50)),
     ("age", mkCol "integer" false none none),
     ("active", mkCol "boolean" true none none),
     ("meta", mkCol "jsonb" true none none),
     ("tags", mkCol "text[]" true none none),
     ("created_at", mkCol "timestamp" false none none),
     ("email", mkCol "text" true none (some 100))]
    ["id"] [("ref", ⟨"s", "parent", "id"⟩)] []

def regC1 : Registry :=
  { schema_source := "db",
    table_schemas := [("s", [("t", tblC1)])],
    initialized := true }

/-! ## Theorems -/

theorem findEqFilterHead {α : Type} (p : α → Bool) (l : List α) :
    l.find? p = (l.filter p).head? := by
  induction l with
  | nil => rfl
  | cons a t ih =>
    by_cases h : p a = true
    · rw [List.find?_cons_of_pos _ h, List.filter_cons_of_pos h, List.head?_cons]
    · rw [List.find?_cons_of_neg _ h, List.filter_cons_of_neg h, ih]

/-- C3: `match_column(requested, available, strict=false)` tries the tiers in
the fixed order exact, case-insensitive, singular/plural, naming
convention, returning a match from the first tier that has one and never
continuing to a later tier (it coincides with the spec-side tiered
resolver on every input); in particular `"UserName"` against
`["username", "user_names"]` resolves to `"username"` at the
case-insensitive tier (shown under an inflection collaborator for which
`"user_names"` also satisfies the plural tier). -/
theorem C3_match_column_tier_order :
    (∀ (inf : Inflect) (name : String) (avail : List String),
      match_column inf name avail false = resolve_spec inf name avail) ∧
    match_column inflectClaimEx "UserName" ["username", "user_names"] false = .ok "username" ∧
    pluralTierHit inflectClaimEx "UserName" "user_names" = true := by
  refine ⟨?_, by rfl, by rfl⟩
  intro inf name avail
  unfold match_column resolve_spec resolveTiersSpec
  by_cases hc : avail.contains name = true
  · have hm : name ∈ avail := by simpa using hc
    simp [hm, firstTierHit]
  · rw [if_neg hc, if_neg hc]
    rw [findEqFilterHead, findEqFilterHead, findEqFilterHead]
    cases h2 : avail.filter (fun col => ciEq col name) with
    | cons c t => simp [firstTierHit]
    | nil =>
      cases h3 : avail.filter (fun col => pluralTierHit inf name col) with
      | cons c t => simp [firstTierHit]
      | nil =>
        cases h4 : avail.filter (fun col => conventionTierHit name col) with
        | cons c t => simp [firstTierHit]
        | nil => simp [firstTierHit]

/-- C2: the `update` statement builder does NOT number WHERE placeholders
consecutively after the SET placeholders.  With `data = {a: 1}` and
`conditions = {b: 2, c: 3}` (all columns resolving exactly) it emits
`c = $4` over a three-element parameter tuple, so `$3` never appears and
`$4` refers past the end of the tuple; with a null-valued condition
preceding a non-null one (`{b: None, c: 3}`) it emits `c = $3` over a
two-element tuple.  The WHERE index is computed as
`len(params) + i + 1`, double-counting the enumerate index. -/
theorem C2_update_where_numbering :
    (DBOperator.updateQuery inflectTrivial timeLibTrivial execAbc "t"
        [("a", .vInt 1)] [("b", .vInt 2), ("c", .vInt 3)] "public" =
      .ok ("UPDATE public.t SET a = $1 WHERE b = $2 AND c = $4",
           [.vInt 1, .vInt 2, .vInt 3])) ∧
    strHas "UPDATE public.t SET a = $1 WHERE b = $2 AND c = $4" "$4" = true ∧
    strHas "UPDATE public.t SET a = $1 WHERE b = $2 AND c = $4" "$3" = false ∧
    (DBOperator.updateQuery inflectTrivial timeLibTrivial execAbc "t"
        [("a", .vInt 1)] [("b", .vNone), ("c", .vInt 3)] "public" =
      .ok ("UPDATE public.t SET a = $1 WHERE b IS NULL AND c = $3",
           [.vInt 1, .vInt 3])) := by
  exact ⟨by rfl, by decide, by decide, by rfl⟩

theorem dictHasKeyEqKeysContains (d : PyDict) (k : String) :
    dictHasKey d k = (d.map Prod.fst).contains k := by
  induction d with
  | nil => rfl
  | cons kv rest ih =>
    obtain ⟨k', v'⟩ := kv
    cases hb : k == k'
    · simp only [dictHasKey, List.lookup, hb, List.map_cons, List.contains_cons, Bool.false_or]
      simpa [dictHasKey] using ih
    · simp [dictHasKey, List.lookup, hb, List.contains_cons]

theorem dictSetKeys (d : PyDict) (k : String) (v : PyVal) :
    (dictSet d k v).map Prod.fst =
      if (d.map Prod.fst).contains k then d.map Prod.fst else d.map Prod.fst ++ [k] := by
  induction d with
  | nil => simp [dictSet]
  | cons kv rest ih =>
    obtain ⟨k', v'⟩ := kv
    by_cases h : k' = k
    · simp [dictSet, h]
    · have h2 : (k == k') = false := by simp [beq_iff_eq]; exact fun e => h e.symm
      simp only [dictSet, beq_iff_eq, h, if_false, List.map_cons, List.contains_cons, h2,
        Bool.false_or, ih]
      by_cases hc : (rest.map Prod.fst).contains k = true
      · rw [if_pos hc, if_pos hc]
      · rw [if_neg hc, if_neg hc, List.cons_append]

theorem formatRecordGoOk (inf : Inflect) (tl : TimeLib) (allowed : List String)
    (recLen : Nat) :
    ∀ (items : PyDict) (acc : PyDict),
      (recLen = 1 → ∀ kv ∈ items, ∃ k', match_column inf kv.1 allowed false = .ok k') →
      DBOperator.formatRecordGo inf tl recLen allowed items acc =
        .ok (DBOperator.formatFoldSpec inf tl allowed items acc) := by
  intro items
  induction items with
  | nil => intro acc _; simp [DBOperator.formatRecordGo, DBOperator.formatFoldSpec]
  | cons kv rest ih =>
    intro acc hres
    obtain ⟨k, v⟩ := kv
    cases hm : match_column inf k allowed false with
    | ok k' =>
      simp only [DBOperator.formatRecordGo, hm, DBOperator.formatFoldSpec, List.foldl_cons]
      exact ih _ (fun h1 kv hkv => hres h1 kv (List.mem_cons_of_mem _ hkv))
    | error e =>
      by_cases h1 : recLen = 1
      · obtain ⟨k', hk'⟩ := hres h1 (k, v) (List.mem_cons_self _ _)
        simp [hm] at hk'
      · have hg : (recLen == 1) = false := by simp [h1]
        simp only [DBOperator.formatRecordGo, hm, hg, Bool.false_eq_true, if_false, DBOperator.formatFoldSpec,
          List.foldl_cons]
        exact ih _ (fun h1' kv hkv => hres h1' kv (List.mem_cons_of_mem _ hkv))

theorem formatFoldSpecKeys (inf : Inflect) (tl : TimeLib) (allowed : List String) :
    ∀ (data : PyDict) (acc : PyDict),
      (DBOperator.formatFoldSpec inf tl allowed data acc).map Prod.fst =
        DBOperator.resolvedKeysFold inf allowed data (acc.map Prod.fst) := by
  intro data
  induction data with
  | nil => intro acc; simp [DBOperator.formatFoldSpec, DBOperator.resolvedKeysFold]
  | cons kv rest ih =>
    intro acc
    obtain ⟨k, v⟩ := kv
    cases hm : match_column inf k allowed false with
    | ok k' =>
      simp only [DBOperator.formatFoldSpec, DBOperator.resolvedKeysFold, List.foldl_cons, hm]
      have := ih (dictSet acc k' (DBOperator.formatValue tl k' v))
      simp only [DBOperator.formatFoldSpec, DBOperator.resolvedKeysFold] at this
      rw [this, dictSetKeys]
    | error e =>
      simp only [DBOperator.formatFoldSpec, DBOperator.resolvedKeysFold, List.foldl_cons, hm]
      exact ih acc

theorem formatFoldSpecAllFail (inf : Inflect) (tl : TimeLib) (allowed : List String) :
    ∀ (data : PyDict) (acc : PyDict),
      (∀ kv ∈ data, ∃ e, match_column inf kv.1 allowed false = .error e) →
      DBOperator.formatFoldSpec inf tl allowed data acc = acc := by
  intro data
  induction data with
  | nil => intro acc _; simp [DBOperator.formatFoldSpec]
  | cons kv rest ih =>
    intro acc hall
    obtain ⟨k, v⟩ := kv
    obtain ⟨e, he⟩ := hall (k, v) (List.mem_cons_self _ _)
    simp only [DBOperator.formatFoldSpec, List.foldl_cons, he]
    exact ih acc (fun kv hkv => hall kv (List.mem_cons_of_mem _ hkv))

/-- C4: `insert(table, data)` drops every key of `data` that fails column
resolution and inserts the remaining keys (resolved names, dictionary
semantics), except that when `data` has exactly one key a resolution
failure on it propagates as `ColumnMatchError`; and when no key resolves
(with two or more keys) `insert` raises `ValueError` instead of building
a statement. -/
theorem C4_insert_unknown_column_rules :
    (∀ (inf : Inflect) (tl : TimeLib) (E : DBOperator.Exec) (table schema k : String) (v : PyVal) (e : DbErr),
       E.tableColumns schema table ≠ [] →
       match_column inf k (E.tableColumns schema table) false = .error e →
       DBOperator.insert inf tl E table [(k, v)] schema =
         .error (.columnMatchError k (E.tableColumns schema table))) ∧
    (∀ (inf : Inflect) (tl : TimeLib) (E : DBOperator.Exec) (table schema : String) (data : PyDict),
       E.tableColumns schema table ≠ [] →
       2 ≤ data.length →
       (∀ kv ∈ data, ∃ e, match_column inf kv.1 (E.tableColumns schema table) false = .error e) →
       DBOperator.insert inf tl E table data schema = .error (.valueError "No valid columns to insert")) ∧
    (∀ (inf : Inflect) (tl : TimeLib) (E : DBOperator.Exec) (table schema : String) (data : PyDict),
       E.tableColumns schema table ≠ [] →
       (data.length = 1 →
         ∀ kv ∈ data, ∃ k', match_column inf kv.1 (E.tableColumns schema table) false = .ok k') →
       ∃ fr : PyDict,
         DBOperator.format_record inf tl data none (E.tableColumns schema table) = .ok (fr, fr.map Prod.fst) ∧
         fr.map Prod.fst = DBOperator.resolvedKeysSpec inf (E.tableColumns schema table) data ∧
         (fr ≠ [] →
           DBOperator.insertQuery inf tl E table data schema =
             .ok ("INSERT INTO " ++ schema ++ "." ++ table ++ " (" ++
                  String.intercalate ", " (DBOperator.resolvedKeysSpec inf (E.tableColumns schema table) data) ++
                  ") VALUES (" ++
                  String.intercalate ", "
                    ((List.range (fr.map Prod.snd).length).map (fun i => "$" ++ pyStrNat (i + 1))) ++
                  ")", fr.map Prod.snd))) := by
  refine ⟨?_, ?_, ?_⟩
  · intro inf tl E table schema k v e hne hm
    have hE : (E.tableColumns schema table).isEmpty = false := by
      simpa [List.isEmpty_iff] using hne
    simp [DBOperator.insert, DBOperator.insertQuery, bind, Except.bind,
      DBOperator.get_table_columns, hE, hne, DBOperator.format_record,
      DBOperator.formatRecordGo, hm]
  · intro inf tl E table schema data hne hlen hall
    have hE : (E.tableColumns schema table).isEmpty = false := by
      simpa [List.isEmpty_iff] using hne
    have hgo := formatRecordGoOk inf tl (E.tableColumns schema table) data.length data []
      (fun h1 => absurd h1 (by omega))
    have hfold := formatFoldSpecAllFail inf tl (E.tableColumns schema table) data [] hall
    simp [DBOperator.insert, DBOperator.insertQuery, bind, Except.bind,
      DBOperator.get_table_columns, hE, hne, DBOperator.format_record, hgo, hfold]
  · intro inf tl E table schema data hne hres
    have hE : (E.tableColumns schema table).isEmpty = false := by
      simpa [List.isEmpty_iff] using hne
    have hgo := formatRecordGoOk inf tl (E.tableColumns schema table) data.length data [] hres
    have hkeys := formatFoldSpecKeys inf tl (E.tableColumns schema table) data []
    refine ⟨DBOperator.formatFoldSpec inf tl (E.tableColumns schema table) data [], ?_, ?_, ?_⟩
    · simp [DBOperator.format_record, hE, hne, hgo]
    · simpa [DBOperator.resolvedKeysSpec] using hkeys
    · intro hfr
      have hfrE : (DBOperator.formatFoldSpec inf tl (E.tableColumns schema table) data []).isEmpty = false := by
        simpa [List.isEmpty_iff] using hfr
      have hkeys2 : DBOperator.resolvedKeysFold inf (E.tableColumns schema table) data [] =
          (DBOperator.formatFoldSpec inf tl (E.tableColumns schema table) data []).map Prod.fst := by
        simpa using hkeys.symm
      simp [DBOperator.insertQuery, bind, Except.bind, DBOperator.get_table_columns, hE, hne,
        DBOperator.format_record, hgo, hfrE, DBOperator.resolvedKeysSpec, hkeys2]

/-- Witness for C4 on the concrete table `t(a, b, c)`: a single unknown key
propagates `ColumnMatchError`, two unknown keys raise `ValueError`, and a
resolvable record is inserted with its resolved keys. -/
theorem C4_insert_unknown_column_rules_witness :
    (DBOperator.insert inflectTrivial timeLibTrivial execAbc "t" [("zzz", .vInt 1)] "public" =
      .error (.columnMatchError "zzz" ["a", "b", "c"])) ∧
    (DBOperator.insert inflectTrivial timeLibTrivial execAbc "t"
        [("zzz", .vInt 1), ("yyy", .vInt 2)] "public" =
      .error (.valueError "No valid columns to insert")) ∧
    (∃ fr : PyDict,
      DBOperator.format_record inflectTrivial timeLibTrivial [("a", .vInt 5)] none
          (execAbc.tableColumns "public" "t") = .ok (fr, fr.map Prod.fst) ∧
      fr.map Prod.fst =
        DBOperator.resolvedKeysSpec inflectTrivial (execAbc.tableColumns "public" "t")
          [("a", .vInt 5)] ∧
      (fr ≠ [] →
        DBOperator.insertQuery inflectTrivial timeLibTrivial execAbc "t" [("a", .vInt 5)] "public" =
          .ok ("INSERT INTO " ++ "public" ++ "." ++ "t" ++ " (" ++
               String.intercalate ", "
                 (DBOperator.resolvedKeysSpec inflectTrivial (execAbc.tableColumns "public" "t")
                   [("a", .vInt 5)]) ++
               ") VALUES (" ++
               String.intercalate ", "
                 ((List.range (fr.map Prod.snd).length).map (fun i => "$" ++ pyStrNat (i + 1))) ++
               ")", fr.map Prod.snd))) := by
  refine ⟨?_, ?_, ?_⟩
  · exact C4_insert_unknown_column_rules.1 inflectTrivial timeLibTrivial execAbc "t" "public"
      "zzz" (.vInt 1) (.columnMatchError "zzz" ["a", "b", "c"]) (by decide) (by rfl)
  · refine C4_insert_unknown_column_rules.2.1 inflectTrivial timeLibTrivial execAbc "t" "public"
      [("zzz", .vInt 1), ("yyy", .vInt 2)] (by decide) (by decide) ?_
    intro kv hkv
    simp only [List.mem_cons, List.not_mem_nil, or_false] at hkv
    rcases hkv with h | h <;> subst h <;> exact ⟨_, by rfl⟩
  · refine C4_insert_unknown_column_rules.2.2 inflectTrivial timeLibTrivial execAbc "t" "public"
      [("a", .vInt 5)] (by decide) ?_
    intro _ kv hkv
    simp only [List.mem_cons, List.not_mem_nil, or_false] at hkv
    subst hkv
    exact ⟨"a", by rfl⟩

theorem getByUuidPostEqMap (jl : String → Option PyVal) (row : PyDict) :
    DBOperator.getByUuidPost jl row = row.map (jsonParseSpec jl) := by
  induction row with
  | nil => rfl
  | cons kv rest ih =>
    obtain ⟨k, v⟩ := kv
    cases v <;> simp [DBOperator.getByUuidPost, jsonParseSpec, ih, List.map_cons]

/-- C7: `get_by_uuid` with no key column supplied uses the column literally
named `uuid` when the table has one and otherwise `id`; it always binds
the looked-up value as its string form `str(value)`; and in a fetched
row, each column named `metadata`, `variables` or `content` holding a
string is replaced by its parsed JSON value, the raw string being kept
when parsing fails. -/
theorem C7_get_by_uuid_contract :
    ∀ (E : DBOperator.Exec) (jl : String → Option PyVal) (table schema : String) (value : PyVal),
      E.tableColumns schema table ≠ [] →
      ((if (E.tableColumns schema table).contains "uuid" then "uuid" else "id")
        ∈ E.tableColumns schema table) →
      DBOperator.get_by_uuid E jl table value none schema =
        .ok ((E.fetchRow
               ("SELECT * FROM " ++ schema ++ "." ++ table ++ " WHERE " ++
                (if (E.tableColumns schema table).contains "uuid" then "uuid" else "id") ++
                " = $1")
               [.vStr (pyStr value)]).map
             (fun row => row.map (jsonParseSpec jl))) := by
  intro E jl table schema value hne hmem
  have hE : (E.tableColumns schema table).isEmpty = false := by
    simpa [List.isEmpty_iff] using hne
  by_cases hu : "uuid" ∈ E.tableColumns schema table
  · have hcu : (E.tableColumns schema table).contains "uuid" = true := by simpa using hu
    cases hf : E.fetchRow
        ("SELECT * FROM " ++ schema ++ "." ++ table ++ " WHERE " ++ "uuid" ++ " = $1")
        [.vStr (pyStr value)] with
    | none =>
      simp [DBOperator.get_by_uuid, bind, Except.bind, DBOperator.get_table_columns, hE, hcu, hu,
        hf]
    | some row =>
      simp [DBOperator.get_by_uuid, bind, Except.bind, DBOperator.get_table_columns, hE, hcu, hu,
        hf, getByUuidPostEqMap]
  · have hcu : (E.tableColumns schema table).contains "uuid" = false := by simpa using hu
    have hid : "id" ∈ E.tableColumns schema table := by simpa [hu] using hmem
    cases hf : E.fetchRow
        ("SELECT * FROM " ++ schema ++ "." ++ table ++ " WHERE " ++ "id" ++ " = $1")
        [.vStr (pyStr value)] with
    | none =>
      simp [DBOperator.get_by_uuid, bind, Except.bind, DBOperator.get_table_columns, hE, hcu, hu,
        hid, hf]
    | some row =>
      simp [DBOperator.get_by_uuid, bind, Except.bind, DBOperator.get_table_columns, hE, hcu, hu,
        hid, hf, getByUuidPostEqMap]

/-- Witness for C7: with a `uuid` column present the key column is `uuid`
and the fetched row has its `metadata` string parsed and its unparsable
`content` string kept; with no `uuid` column the key column is `id`. -/
theorem C7_get_by_uuid_contract_witness :
    (DBOperator.get_by_uuid execUuidTbl jlEx "t" (.vInt 7) none "public" =
      .ok (some [("uuid", .vStr "u1"), ("metadata", .vDict []),
                 ("content", .vStr "notjson"), ("other", .vStr "raw")])) ∧
    (DBOperator.get_by_uuid execIdTbl jlEx "t" (.vStr "x7") none "public" = .ok none) := by
  constructor
  · exact (C7_get_by_uuid_contract execUuidTbl jlEx "t" "public" (.vInt 7)
      (by decide) (by decide)).trans (by rfl)
  · exact (C7_get_by_uuid_contract execIdTbl jlEx "t" "public" (.vStr "x7")
      (by decide) (by decide)).trans (by rfl)

/-- C8: `initialize()` is idempotent: whenever a call succeeds (returning
the registry state `r'`), every later call, under any environment,
performs no extraction (the instrumentation flag is `false`) and returns
`r'` unchanged — in particular the cached `table_schemas` stay exactly as
the first call left them. -/
theorem C8_initialize_idempotent :
    ∀ (env env2 : SchemaEnv) (r r' : Registry) (b : Bool),
      initializeE env r = .ok (r', b) →
      initializeE env2 r' = .ok (r', false) := by
  intro env env2 r r' b h
  have hinit : r'.initialized = true := by
    unfold initializeE at h
    by_cases hi : r.initialized
    · simp [hi] at h
      rw [← h.1]
      exact hi
    · by_cases hdb : r.schema_source == "db"
      · cases hd : env.dbResult with
        | ok ss =>
          simp [hi, hdb, hd] at h
          rw [← h.1]
        | error m => simp [hi, hdb, hd] at h
      · by_cases hfl : r.schema_source == "file"
        · cases hfd : env.fileResult with
          | ok ss =>
            simp [hi, hdb, hfl, hfd] at h
            rw [← h.1]
          | error m => simp [hi, hdb, hfl, hfd] at h
        · simp [hi, hdb, hfl] at h
  unfold initializeE
  simp [hinit]

/-- Witness for C8: a fresh database-sourced registry initializes once
(performing extraction), and a second call under an unreachable
environment is a no-op returning the same state. -/
theorem C8_initialize_idempotent_witness :
    initializeE envUnreachable
      { schema_source := "db", table_schemas := envDbOk.dbResult.toOption.getD [],
        initialized := true } =
    .ok ({ schema_source := "db", table_schemas := envDbOk.dbResult.toOption.getD [],
           initialized := true }, false) := by
  refine C8_initialize_idempotent envDbOk envUnreachable regFreshDb _ true ?_
  rfl

/-- C9: `MockDataGenerator.generate_row` never propagates an internal
synthesis exception: whenever `generate_mock_data` (or the subsequent
validation call) raises internally, it returns a dictionary carrying the
`mock_error` marker with the error message instead of raising. -/
theorem C9_generate_row_error_marker :
    (∀ (env : SchemaEnv) (r : Registry) (schema table : String)
       (ov : Option PyDict) (o : Oracle) (e : PyErr),
       generate_mock_data env r schema table ov o = .error e →
       generate_row env r schema table ov o = [("mock_error", .vStr (pyErrMsg e))]) ∧
    (∀ (env : SchemaEnv) (r r1 : Registry) (schema table : String)
       (ov : Option PyDict) (o : Oracle) (d : PyDict) (e : PyErr),
       generate_mock_data env r schema table ov o = .ok (r1, d) →
       validate_insert_data env r1 schema table d = .error e →
       generate_row env r schema table ov o = [("mock_error", .vStr (pyErrMsg e))]) := by
  constructor
  · intro env r schema table ov o e h
    unfold generate_row
    rw [h]
  · intro env r r1 schema table ov o d e h hv
    unfold generate_row
    rw [h]
    simp only []
    rw [hv]

/-- Witness for C9: an unknown schema makes synthesis raise internally and
the returned row carries the `mock_error` marker with the message. -/
theorem C9_generate_row_error_marker_witness :
    generate_row envUnreachable regEmptyInit "s" "t" none oracleZero =
      [("mock_error", .vStr "Schema 's' not found in schema registry")] :=
  C9_generate_row_error_marker.1 envUnreachable regEmptyInit "s" "t" none oracleZero
    (.valueError "Schema 's' not found in schema registry") (by rfl)

/-- C10: on an initialized registry, `validate_insert_data` is total at the
public interface: it always returns an `.ok (valid?, message?)` pair; an
unknown schema or unknown table (the hard failure `get_table_schema`
raises) is caught and converted into the `(false, message)` result; and
an exception raised inside the per-value JSON type check (a value
`json.dumps` cannot serialize) is likewise converted into a
`(false, message)` result rather than propagating. -/
theorem C10_validate_insert_data_total :
    (∀ (env : SchemaEnv) (r : Registry) (schema table : String) (data : PyDict),
       r.initialized = true →
       ∃ res : Bool × Option String,
         validate_insert_data env r schema table data = .ok res) ∧
    (∀ (env : SchemaEnv) (r : Registry) (schema table : String) (data : PyDict),
       r.initialized = true →
       List.lookup schema r.table_schemas = none →
       validate_insert_data env r schema table data =
         .ok (false, some ("Schema '" ++ schema ++ "' not found in schema registry"))) ∧
    (∀ (env : SchemaEnv) (r : Registry) (schema table : String) (data : PyDict)
       (tables : List (String × TableSchema)),
       r.initialized = true →
       List.lookup schema r.table_schemas = some tables →
       List.lookup table tables = none →
       validate_insert_data env r schema table data =
         .ok (false, some ("Table '" ++ table ++ "' not found in schema '" ++ schema ++ "'"))) ∧
    (∀ (v : PyVal) (ml : Option Nat) (tn : String),
       firstUnserializable v = some tn →
       validate_data_type v "json" ml =
         (false, some ("Object of type " ++ tn ++ " is not JSON serializable"))) := by
  refine ⟨?_, ?_, ?_, ?_⟩
  · intro env r schema table data hinit
    cases hs : List.lookup schema r.table_schemas with
    | none =>
      refine ⟨(false, some ("Schema '" ++ schema ++ "' not found in schema registry")), ?_⟩
      unfold validate_insert_data get_table_schema initializeE
      simp [hinit, hs]
    | some tables =>
      cases ht : List.lookup table tables with
      | none =>
        refine ⟨(false, some ("Table '" ++ table ++ "' not found in schema '" ++ schema ++ "'")),
          ?_⟩
        unfold validate_insert_data get_table_schema initializeE
        simp [hinit, hs, ht]
      | some tbl =>
        cases hm : requiredColMissing data tbl.columns with
        | none =>
          refine ⟨validateValuesLoop tbl.columns data, ?_⟩
          unfold validate_insert_data get_table_schema initializeE
          simp [hinit, hs, ht, hm]
        | some col =>
          refine ⟨(false, some ("Missing required column: " ++ col)), ?_⟩
          unfold validate_insert_data get_table_schema initializeE
          simp [hinit, hs, ht, hm]
  · intro env r schema table data hinit hs
    unfold validate_insert_data get_table_schema initializeE
    simp [hinit, hs]
  · intro env r schema table data tables hinit hs ht
    unfold validate_insert_data get_table_schema initializeE
    simp [hinit, hs, ht]
  · intro v ml tn hser
    cases v with
    | vNone => simp [firstUnserializable] at hser
    | vBool b => simp [firstUnserializable] at hser
    | vInt n => simp [firstUnserializable] at hser
    | vFloat p => simp [firstUnserializable] at hser
    | vStr s => simp [firstUnserializable] at hser
    | vList xs =>
      have h : validate_data_type (.vList xs) "json" ml =
          (match firstUnserializableList xs with
           | some t => (false, some ("Object of type " ++ t ++ " is not JSON serializable"))
           | none => (true, none)) := rfl
      have hser2 : firstUnserializableList xs = some tn := hser
      rw [h, hser2]
    | vTuple xs =>
      have h : validate_data_type (.vTuple xs) "json" ml =
          (match firstUnserializableList xs with
           | some t => (false, some ("Object of type " ++ t ++ " is not JSON serializable"))
           | none => (true, none)) := rfl
      have hser2 : firstUnserializableList xs = some tn := hser
      rw [h, hser2]
    | vDict fs =>
      have h : validate_data_type (.vDict fs) "json" ml =
          (match firstUnserializableFields fs with
           | some t => (false, some ("Object of type " ++ t ++ " is not JSON serializable"))
           | none => (true, none)) := rfl
      have hser2 : firstUnserializableFields fs = some tn := hser
      rw [h, hser2]
    | vDatetime s =>
      have h : tn = "datetime" := by simpa [firstUnserializable, pyTypeName] using hser.symm
      subst h
      rfl
    | vDate s =>
      have h : tn = "date" := by simpa [firstUnserializable, pyTypeName] using hser.symm
      subst h
      rfl
    | vTime s =>
      have h : tn = "time" := by simpa [firstUnserializable, pyTypeName] using hser.symm
      subst h
      rfl

/-- Witness for C10: on an initialized registry with an empty cache the
unknown-schema failure is converted to `(false, message)`, and a
`datetime` value under a `json` column converts the serialization error
to `(false, message)`. -/
theorem C10_validate_insert_data_total_witness :
    (validate_insert_data envUnreachable regEmptyInit "s" "t" [] =
      .ok (false, some "Schema 's' not found in schema registry")) ∧
    (validate_data_type (.vDatetime "2025-01-01T00:00:00") "json" none =
      (false, some "Object of type datetime is not JSON serializable")) := by
  constructor
  · exact (C10_validate_insert_data_total.2.1 envUnreachable regEmptyInit "s" "t" []
      (by rfl) (by rfl)).trans (by rfl)
  · exact (C10_validate_insert_data_total.2.2.2 (.vDatetime "2025-01-01T00:00:00") none
      "datetime" (by rfl)).trans (by rfl)

theorem dumpsListMapVStr (l : List String) :
    jsonDumpsValList (l.map .vStr) = l.map .vStr := by
  induction l with
  | nil => rfl
  | cons s t ih => simp [jsonDumpsValList, jsonDumpsVal, ih]

theorem dumpsEncodeFkRef (fk : FkRef) :
    jsonDumpsVal (encodeFkRef fk) = encodeFkRef fk := rfl

theorem dumpsEncodeColInfo (ci : ColInfo) :
    jsonDumpsVal (encodeColInfo ci) = encodeColInfo ci := by
  obtain ⟨t, nl, d, ml⟩ := ci
  cases d <;> cases ml <;> rfl

theorem dumpsEncodeIndexInfo (ix : IndexInfo) :
    jsonDumpsVal (encodeIndexInfo ix) = encodeIndexInfo ix := by
  obtain ⟨cols, u⟩ := ix
  simp [encodeIndexInfo, jsonDumpsVal, jsonDumpsValFields, jsonDumpsValList, dumpsListMapVStr]

theorem dumpsEncodeTableSchema (t : TableSchema) :
    jsonDumpsVal (encodeTableSchema t) = encodeTableSchema t := by
  obtain ⟨cols, pks, fks, idx⟩ := t
  simp only [encodeTableSchema, jsonDumpsVal, jsonDumpsValFields, jsonDumpsValList]
  refine congrArg _ ?_
  have hcols : jsonDumpsValFields (cols.map fun kv => (kv.1, encodeColInfo kv.2)) =
      cols.map fun kv => (kv.1, encodeColInfo kv.2) := by
    induction cols with
    | nil => rfl
    | cons kv rest ih => simp [jsonDumpsValFields, dumpsEncodeColInfo, ih]
  have hpks : jsonDumpsValList (pks.map .vStr) = pks.map .vStr := dumpsListMapVStr pks
  have hfks : jsonDumpsValFields (fks.map fun kv => (kv.1, encodeFkRef kv.2)) =
      fks.map fun kv => (kv.1, encodeFkRef kv.2) := by
    induction fks with
    | nil => rfl
    | cons kv rest ih => simp [jsonDumpsValFields, dumpsEncodeFkRef, ih]
  have hidx : jsonDumpsValFields (idx.map fun kv => (kv.1, encodeIndexInfo kv.2)) =
      idx.map fun kv => (kv.1, encodeIndexInfo kv.2) := by
    induction idx with
    | nil => rfl
    | cons kv rest ih => simp [jsonDumpsValFields, dumpsEncodeIndexInfo, ih]
  simp [jsonDumpsVal, hcols, hpks, hfks, hidx]

theorem dumpsEncodeTables (tables : List (String × TableSchema)) :
    jsonDumpsValFields (tables.map fun tt => (tt.1, encodeTableSchema tt.2)) =
      tables.map fun tt => (tt.1, encodeTableSchema tt.2) := by
  induction tables with
  | nil => rfl
  | cons tt rest ih => simp [jsonDumpsValFields, dumpsEncodeTableSchema, ih]

theorem dumpsEncodeSchemas (ss : Schemas) :
    jsonDumpsVal (encodeSchemas ss) = encodeSchemas ss := by
  simp only [encodeSchemas, jsonDumpsVal]
  refine congrArg _ ?_
  induction ss with
  | nil => rfl
  | cons st rest ih =>
    obtain ⟨sn, tables⟩ := st
    simp [jsonDumpsValFields, jsonDumpsVal, dumpsEncodeTables, ih]

theorem lookupMapSnd {α β : Type} (k : String) (l : List (String × α)) (g : α → β) :
    List.lookup k (l.map fun p => (p.1, g p.2)) = (List.lookup k l).map g := by
  induction l with
  | nil => rfl
  | cons p rest ih =>
    obtain ⟨k', a⟩ := p
    cases hb : k == k' <;> simp [List.lookup, hb, ih]

/-- C6: round trip — for an initialized registry (whose cached metadata is
JSON-representable by construction of the extraction strategies),
`from_json(to_json(registry))` produces a registry whose
`get_table_schema(schema, table)` result is, for every schema and table,
structurally equal to the original's: it is exactly the dictionary
encoding (`encodeTableSchema`) of the original `TableSchema`, which is
the Python value the original registry's cache holds; missing schemas and
tables raise the same `ValueError`s on both sides. -/
theorem C6_to_json_from_json_round_trip :
    ∀ (env : SchemaEnv) (r : Registry) (j : PyVal),
      r.initialized = true →
      to_jsonVal env r = .ok j →
      ∀ (schema table : String),
        get_table_schemaJ (from_json j) schema table =
          (get_table_schema env r schema table).map (fun rt => encodeTableSchema rt.2) := by
  intro env r j hinit hj schema table
  have hj2 : j = encodeSchemas r.table_schemas := by
    unfold to_jsonVal initializeE at hj
    simp only [hinit, if_true] at hj
    rw [dumpsEncodeSchemas] at hj
    exact (Except.ok.inj hj).symm
  subst hj2
  unfold get_table_schemaJ from_json get_table_schema initializeE dictGetJ encodeSchemas
  simp only [hinit, if_true, Bool.not_true, Bool.false_eq_true, if_false]
  have hmap1 := lookupMapSnd schema r.table_schemas
      (fun tables => PyVal.vDict (tables.map fun tt => (tt.1, encodeTableSchema tt.2)))
  rw [hmap1]
  cases hs : List.lookup schema r.table_schemas with
  | none => rfl
  | some tables =>
    simp only [Option.map]
    have hmap2 := lookupMapSnd table tables encodeTableSchema
    rw [hmap2]
    cases ht : List.lookup table tables with
    | none => rfl
    | some tbl => rfl

/-- Witness for C6 on a concrete registry with a primary key, foreign key
and index: the reimported registry returns the encoded table dictionary. -/
theorem C6_to_json_from_json_round_trip_witness :
    get_table_schemaJ (from_json (encodeSchemas regC6.table_schemas)) "s" "t" =
      .ok (encodeTableSchema (mkTable
        [("id", mkCol "uuid" false (some "gen_random_uuid()") none),
         ("ref", mkCol "text" false none (some 64))]
        ["id"]
        [("ref", ⟨"s", "parent", "id"⟩)]
        [("t_pkey", ⟨["id"], true⟩)])) := by
  exact (C6_to_json_from_json_round_trip envUnreachable regC6
    (encodeSchemas regC6.table_schemas) (by rfl) (by rfl) "s" "t").trans (by rfl)

theorem rcmNoneIff (data : PyDict) (cols : List (String × ColInfo)) :
    requiredColMissing data cols = none ↔
      ∀ p ∈ cols, isRequiredCol p.2 = true → dictHasKey data p.1 = true := by
  induction cols with
  | nil => simp [requiredColMissing]
  | cons p rest ih =>
    obtain ⟨n, ci⟩ := p
    cases hg : (isRequiredCol ci && !dictHasKey data n) with
    | true =>
      simp only [requiredColMissing, hg, if_true]
      simp only [Bool.and_eq_true, Bool.not_eq_true'] at hg
      constructor
      · intro h; cases h
      · intro h
        have h2 := h (n, ci) (List.mem_cons_self _ _) hg.1
        rw [hg.2] at h2
        cases h2
    | false =>
      simp only [requiredColMissing, hg, Bool.false_eq_true, if_false, ih]
      constructor
      · intro h q hq hrq
        rcases List.mem_cons.mp hq with he | hm
        · subst he
          have hg2 := hg
          rw [hrq] at hg2
          simpa using hg2
        · exact h q hm hrq
      · intro h q hq hrq
        exact h q (List.mem_cons_of_mem _ hq) hrq

theorem rcmSome (data : PyDict) (cols : List (String × ColInfo)) (n : String) :
    requiredColMissing data cols = some n →
    ∃ ci, (n, ci) ∈ cols ∧ isRequiredCol ci = true ∧ dictHasKey data n = false := by
  induction cols with
  | nil => intro h; cases h
  | cons p rest ih =>
    obtain ⟨m, ci⟩ := p
    intro h
    cases hg : (isRequiredCol ci && !dictHasKey data m) with
    | true =>
      simp only [requiredColMissing, hg, if_true, Option.some.injEq] at h
      subst h
      simp only [Bool.and_eq_true, Bool.not_eq_true'] at hg
      exact ⟨ci, List.mem_cons_self _ _, hg.1, hg.2⟩
    | false =>
      simp only [requiredColMissing, hg, Bool.false_eq_true, if_false] at h
      obtain ⟨ci2, hmem, hreq, hkey⟩ := ih h
      exact ⟨ci2, List.mem_cons_of_mem _ hmem, hreq, hkey⟩

theorem validateValuesLoopOk (columns : List (String × ColInfo)) :
    ∀ data : PyDict,
      (∀ kv ∈ data, ∃ ci, List.lookup kv.1 columns = some ci ∧
        ((isNoneVal kv.2 = true ∧ ci.nullable = true) ∨
         (isNoneVal kv.2 = false ∧ (validate_data_type kv.2 ci.type ci.max_length).1 = true))) →
      validateValuesLoop columns data = (true, none) := by
  intro data
  induction data with
  | nil => intro _; rfl
  | cons kv rest ih =>
    intro h
    obtain ⟨k, v⟩ := kv
    obtain ⟨ci, hlk, hval⟩ := h (k, v) (List.mem_cons_self _ _)
    have hrest := fun kv hkv => h kv (List.mem_cons_of_mem _ hkv)
    rcases hval with ⟨hnone, hnul⟩ | ⟨hne, hok⟩
    · simp only [validateValuesLoop, hlk, hnone, if_true, hnul, Bool.not_true,
        Bool.false_eq_true, if_false]
      exact ih hrest
    · simp only [validateValuesLoop, hlk, hne, Bool.false_eq_true, if_false, hok, Bool.not_true]
      exact ih hrest

/-- C5 (amended): for every table in the registry, `validate_insert_data`
returns `(false, message-naming-a-missing-column)` whenever some
non-nullable, default-less, non-system-generated column is absent from
the data; and it returns `(true, null)` whenever every such required
column is present, no key lies outside the table's columns, null is
assigned only to nullable columns, and — the amendment the counterexample
forces — every present non-null value (of required and optional columns
alike) passes the declared type and length check. -/
theorem C5_validate_required_and_complete :
    ∀ (env : SchemaEnv) (r : Registry) (schema table : String) (data : PyDict)
      (tables : List (String × TableSchema)) (tbl : TableSchema),
      r.initialized = true →
      List.lookup schema r.table_schemas = some tables →
      List.lookup table tables = some tbl →
      ((∃ p ∈ tbl.columns, isRequiredCol p.2 = true ∧ dictHasKey data p.1 = false) →
        ∃ (name : String) (ci : ColInfo), (name, ci) ∈ tbl.columns ∧ isRequiredCol ci = true ∧
          dictHasKey data name = false ∧
          validate_insert_data env r schema table data =
            .ok (false, some ("Missing required column: " ++ name))) ∧
      ((∀ p ∈ tbl.columns, isRequiredCol p.2 = true → dictHasKey data p.1 = true) →
       (∀ kv ∈ data, ∃ ci, List.lookup kv.1 tbl.columns = some ci ∧
          ((isNoneVal kv.2 = true ∧ ci.nullable = true) ∨
           (isNoneVal kv.2 = false ∧ (validate_data_type kv.2 ci.type ci.max_length).1 = true))) →
        validate_insert_data env r schema table data = .ok (true, none)) := by
  intro env r schema table data tables tbl hinit hs ht
  constructor
  · intro hex
    cases hm : requiredColMissing data tbl.columns with
    | none =>
      obtain ⟨p, hp, hreq, hkey⟩ := hex
      have := (rcmNoneIff data tbl.columns).mp hm p hp hreq
      rw [this] at hkey
      cases hkey
    | some name =>
      obtain ⟨ci, hmem, hreq, hkey⟩ := rcmSome data tbl.columns name hm
      refine ⟨name, ci, hmem, hreq, hkey, ?_⟩
      unfold validate_insert_data get_table_schema initializeE
      simp [hinit, hs, ht, hm]
  · intro hreq hvals
    have hm : requiredColMissing data tbl.columns = none := (rcmNoneIff data tbl.columns).mpr hreq
    have hloop := validateValuesLoopOk tbl.columns data hvals
    unfold validate_insert_data get_table_schema initializeE
    simp [hinit, hs, ht, hm, hloop]

/-- C5 counterexample: on the table `t(a integer not null, b text null)`,
the record `{a: 1, b: 2}` satisfies every condition the claim lists —
the required column `a` carries a type-correct non-null value, no key
lies outside the table's columns, and no null is assigned — yet
`validate_insert_data` returns `(false, message)` rather than
`(true, null)`, because the optional column `b` holds an int where text
is declared. -/
theorem C5_counterexample :
    validate_insert_data envUnreachable regC5 "s" "t" [("a", .vInt 1), ("b", .vInt 2)] =
      .ok (false, some "Invalid value for column b: Expected string, got int") ∧
    validate_insert_data envUnreachable regC5 "s" "t" [("a", .vInt 1), ("b", .vInt 2)] ≠
      .ok (true, none) ∧
    ([("a", mkCol "integer" false none none), ("b", mkCol "text" true none none)].all
      (fun p => !isRequiredCol p.2 ||
        (match List.lookup p.1 [("a", PyVal.vInt 1), ("b", PyVal.vInt 2)] with
         | some v => !isNoneVal v && (validate_data_type v p.2.type p.2.max_length).1
         | none => false))) = true ∧
    ([("a", PyVal.vInt 1), ("b", PyVal.vInt 2)].all fun kv => ["a", "b"].contains kv.1) = true ∧
    ([("a", PyVal.vInt 1), ("b", PyVal.vInt 2)].all fun kv => !isNoneVal kv.2) = true := by
  refine ⟨by rfl, ?_, by rfl, by rfl, by rfl⟩
  intro h
  rw [show validate_insert_data envUnreachable regC5 "s" "t" [("a", .vInt 1), ("b", .vInt 2)] =
    .ok (false, some "Invalid value for column b: Expected string, got int") from rfl] at h
  simp at h

/-- Witness for C5 on the same concrete table: the empty record is rejected
with the missing required column `a`, and a fully populated type-correct
record validates to `(true, null)`. -/
theorem C5_validate_required_and_complete_witness :
    (∃ (name : String) (ci : ColInfo),
      (name, ci) ∈ (mkTable [("a", mkCol "integer" false none none),
        ("b", mkCol "text" true none none)] ["a"] [] []).columns ∧
      isRequiredCol ci = true ∧ dictHasKey [] name = false ∧
      validate_insert_data envUnreachable regC5 "s" "t" [] =
        .ok (false, some ("Missing required column: " ++ name))) ∧
    validate_insert_data envUnreachable regC5 "s" "t" [("a", .vInt 2), ("b", .vStr "x")] =
      .ok (true, none) := by
  constructor
  · refine (C5_validate_required_and_complete envUnreachable regC5 "s" "t" [] _ _
      rfl rfl rfl).1 ?_
    exact ⟨("a", mkCol "integer" false none none), by decide, by rfl, by rfl⟩
  · refine (C5_validate_required_and_complete envUnreachable regC5 "s" "t"
      [("a", .vInt 2), ("b", .vStr "x")] _ _ rfl rfl rfl).2 (by decide) ?_
    intro kv hkv
    simp only [List.mem_cons, List.not_mem_nil, or_false] at hkv
    rcases hkv with h | h <;> subst h
    · exact ⟨mkCol "integer" false none none, by rfl, Or.inr ⟨by rfl, by rfl⟩⟩
    · exact ⟨mkCol "text" true none none, by rfl, Or.inr ⟨by rfl, by rfl⟩⟩

/-! ### Decimal renderings, random draws and UUID shape (support for C1) -/

theorem strMkLength (l : List Char) : (String.mk l).length = l.length := rfl

theorem natDigitsAuxFuel : ∀ (f g n : Nat), n < f → n < g → natDigitsAux f n = natDigitsAux g n := by
  intro f
  induction f with
  | zero => intro g n hf _; exact absurd hf (Nat.not_lt_zero n)
  | succ f ih =>
    intro g n hf hg
    cases g with
    | zero => exact absurd hg (Nat.not_lt_zero n)
    | succ g =>
      by_cases h : n < 10
      · simp [natDigitsAux, h]
      · have hd : n / 10 < n := Nat.div_lt_self (by omega) (by omega)
        simp only [natDigitsAux, h, if_false]
        rw [ih g (n / 10) (by omega) (by omega)]

theorem natDigitsLow (n : Nat) (h : n < 10) : natDigits n = [digitChar n] := by
  simp [natDigits, natDigitsAux, h]

theorem natDigitsHigh (n : Nat) (h : 10 ≤ n) :
    natDigits n = natDigits (n / 10) ++ [digitChar n] := by
  have h' : ¬ n < 10 := by omega
  have hd : n / 10 < n := Nat.div_lt_self (by omega) (by omega)
  show natDigitsAux (n + 1) n = _
  simp only [natDigitsAux, h', if_false]
  rw [natDigitsAuxFuel n (n / 10 + 1) (n / 10) (by omega) (Nat.lt_succ_self _)]
  rfl

theorem natDigitsLen4 (n : Nat) (h1 : 1000 ≤ n) (h2 : n < 10000) :
    (natDigits n).length = 4 := by
  rw [natDigitsHigh n (by omega)]
  rw [natDigitsHigh (n / 10) (by omega)]
  rw [natDigitsHigh (n / 10 / 10) (by omega)]
  rw [natDigitsLow (n / 10 / 10 / 10) (by omega)]
  simp

theorem pyStrNatLen4 (n : Nat) (h1 : 1000 ≤ n) (h2 : n < 10000) :
    (pyStrNat n).length = 4 := natDigitsLen4 n h1 h2

theorem randintBounds (o : Oracle) (k lo hi : Nat) (h : lo ≤ hi) :
    lo ≤ randint o k lo hi ∧ randint o k lo hi ≤ hi := by
  unfold randint
  have hm : o.rand k % (hi - lo + 1) < hi - lo + 1 := Nat.mod_lt _ (by omega)
  omega

theorem pyChoiceMem {α : Type} (xs : List α) (d : α) (r : Nat) (h : xs ≠ []) :
    pyChoice xs d r ∈ xs := by
  have hlen : 0 < xs.length := List.length_pos.mpr h
  have hlt : r % xs.length < xs.length := Nat.mod_lt _ hlen
  have he : pyChoice xs d r = xs.get ⟨r % xs.length, hlt⟩ := by
    unfold pyChoice
    rw [List.getD_eq_getElem?_getD, List.getElem?_eq_getElem hlt]
    rfl
  rw [he]
  exact List.get_mem xs _ _

theorem pyTitleCharsLen : ∀ (cs : List Char) (b : Bool), (pyTitleChars cs b).length = cs.length := by
  intro cs
  induction cs with
  | nil => intro b; rfl
  | cons c cs ih => intro b; simp [pyTitleChars, ih]

theorem pyTitleLen (w : String) : (pyTitle w).length = w.length :=
  pyTitleCharsLen w.data false

theorem lcCharsLen (o : Oracle) (k n : Nat) : (lcChars o k n).length = n := by
  simp [lcChars]

theorem hexDigitsRunLen (o : Oracle) (k n : Nat) : (hexDigitsRun o k n).length = n := by
  simp [hexDigitsRun]

theorem hexCharOfHex (r : Nat) : isHexCI (hexCharOf r) = true := by
  have hm := pyChoiceMem "0123456789abcdef".data '0' r (by decide)
  have hall : ∀ c ∈ "0123456789abcdef".data, isHexCI c = true := by decide
  exact hall _ hm

theorem hexDigitsRunHex (o : Oracle) (k n : Nat) :
    ∀ c ∈ hexDigitsRun o k n, isHexCI c = true := by
  intro c hc
  simp only [hexDigitsRun, List.mem_map] at hc
  obtain ⟨i, _, hi⟩ := hc
  rw [← hi]
  exact hexCharOfHex _

theorem hexRunChunk : ∀ (cs rest : List Char), (∀ c ∈ cs, isHexCI c = true) →
    hexRun cs.length (cs ++ rest) = some rest := by
  intro cs
  induction cs with
  | nil => intro rest _; rfl
  | cons c cs ih =>
    intro rest h
    have hc := h c (List.mem_cons_self _ _)
    simp only [List.length_cons, List.cons_append, hexRun, hc, if_true]
    exact ih rest (fun x hx => h x (List.mem_cons_of_mem _ hx))

theorem hexRunOfLen (n : Nat) (cs rest : List Char) (hl : cs.length = n)
    (hh : ∀ c ∈ cs, isHexCI c = true) : hexRun n (cs ++ rest) = some rest := by
  subst hl
  exact hexRunChunk cs rest hh

theorem optBindSome {α β : Type} (a : α) (f : α → Option β) : (some a >>= f) = f a := rfl

theorem mkUuidFormat (o : Oracle) (k : Nat) : isUuidFormat (mkUuid o k) = true := by
  have h8 := hexRunOfLen 8 (hexDigitsRun o k 8)
      ('-' :: (hexDigitsRun o (k + 8) 4 ++ '-' :: (hexDigitsRun o (k + 12) 4 ++ '-' ::
        (hexDigitsRun o (k + 16) 4 ++ '-' :: hexDigitsRun o (k + 20) 12))))
      (hexDigitsRunLen o k 8) (hexDigitsRunHex o k 8)
  have h4a := hexRunOfLen 4 (hexDigitsRun o (k + 8) 4)
      ('-' :: (hexDigitsRun o (k + 12) 4 ++ '-' :: (hexDigitsRun o (k + 16) 4 ++ '-' ::
        hexDigitsRun o (k + 20) 12)))
      (hexDigitsRunLen o (k + 8) 4) (hexDigitsRunHex o (k + 8) 4)
  have h4b := hexRunOfLen 4 (hexDigitsRun o (k + 12) 4)
      ('-' :: (hexDigitsRun o (k + 16) 4 ++ '-' :: hexDigitsRun o (k + 20) 12))
      (hexDigitsRunLen o (k + 12) 4) (hexDigitsRunHex o (k + 12) 4)
  have h4c := hexRunOfLen 4 (hexDigitsRun o (k + 16) 4)
      ('-' :: hexDigitsRun o (k + 20) 12)
      (hexDigitsRunLen o (k + 16) 4) (hexDigitsRunHex o (k + 16) 4)
  have h12 : hexRun 12 (hexDigitsRun o (k + 20) 12) = some [] := by
    have h0 := hexRunOfLen 12 (hexDigitsRun o (k + 20) 12) []
        (hexDigitsRunLen o (k + 20) 12) (hexDigitsRunHex o (k + 20) 12)
    simpa using h0
  unfold isUuidFormat mkUuid
  simp only [optBindSome, h8, dashNext, h4a, h4b, h4c, h12]

/-! ### Specialization equations and acceptance lemmas for the validator -/

theorem validateVStrEq (s : String) (dt : String) (ml : Option Nat) :
    validate_data_type (.vStr s) dt ml =
      (if intTypeFam dt then (false, some ("Expected integer, got " ++ "str"))
       else if textTypeFam dt then
         (match ml, PyVal.vStr s with
          | some m, .vStr s2 =>
            if m ≠ 0 && s2.length > m then
              (false, some ("String exceeds maximum length of " ++ pyStrNat m))
            else (true, none)
          | _, _ => (true, none))
       else if numTypeFam dt then (false, some ("Expected number, got " ++ "str"))
       else if dt == "boolean" then (false, some ("Expected boolean, got " ++ "str"))
       else if tsTypeFam dt then (true, none)
       else if jsonTypeFam dt then (true, none)
       else if dt == "uuid" then
         (if !isUuidFormat s then (false, some ("Invalid UUID format: " ++ s)) else (true, none))
       else if endsW dt "[]" then (false, some ("Expected array, got " ++ "str"))
       else (true, none)) := rfl

theorem validateVIntEq (n : Int) (dt : String) (ml : Option Nat) :
    validate_data_type (.vInt n) dt ml =
      (if intTypeFam dt then (true, none)
       else if textTypeFam dt then (false, some ("Expected string, got " ++ "int"))
       else if numTypeFam dt then (true, none)
       else if dt == "boolean" then (false, some ("Expected boolean, got " ++ "int"))
       else if tsTypeFam dt then (false, some ("Expected timestamp/date/time, got " ++ "int"))
       else if jsonTypeFam dt then (true, none)
       else if dt == "uuid" then (false, some ("Expected string for UUID, got " ++ "int"))
       else if endsW dt "[]" then (false, some ("Expected array, got " ++ "int"))
       else (true, none)) := rfl

theorem validateVListEq (xs : List PyVal) (dt : String) (ml : Option Nat) :
    validate_data_type (.vList xs) dt ml =
      (if intTypeFam dt then (false, some ("Expected integer, got " ++ "list"))
       else if textTypeFam dt then (false, some ("Expected string, got " ++ "list"))
       else if numTypeFam dt then (false, some ("Expected number, got " ++ "list"))
       else if dt == "boolean" then (false, some ("Expected boolean, got " ++ "list"))
       else if tsTypeFam dt then (false, some ("Expected timestamp/date/time, got " ++ "list"))
       else if jsonTypeFam dt then
         (match firstUnserializableList xs with
          | some tn => (false, some ("Object of type " ++ tn ++ " is not JSON serializable"))
          | none => (true, none))
       else if dt == "uuid" then (false, some ("Expected string for UUID, got " ++ "list"))
       else if endsW dt "[]" then
         (if xs.isEmpty then (true, none) else validateArrayElems xs (baseType dt))
       else (true, none)) := rfl

theorem intConcrete (dt : String) (h : intTypeFam dt = true) :
    dt = "integer" ∨ dt = "smallint" ∨ dt = "bigint" ∨ dt = "int" := by
  simpa only [intTypeFam, Bool.or_eq_true, beq_iff_eq, or_assoc] using h

theorem numConcrete (dt : String) (h : numTypeFam dt = true) :
    dt = "numeric" ∨ dt = "decimal" ∨ dt = "real" ∨ dt = "double precision" ∨ dt = "float" := by
  simpa only [numTypeFam, Bool.or_eq_true, beq_iff_eq, or_assoc] using h

theorem tsConcrete (dt : String) (h : tsTypeFam dt = true) :
    dt = "timestamp" ∨ dt = "date" ∨ dt = "time" := by
  simpa only [tsTypeFam, Bool.or_eq_true, beq_iff_eq, or_assoc] using h

theorem jsonConcrete (dt : String) (h : jsonTypeFam dt = true) :
    dt = "jsonb" ∨ dt = "json" := by
  simpa only [jsonTypeFam, Bool.or_eq_true, beq_iff_eq, or_assoc] using h

theorem textNotInt (dt : String) (h : textTypeFam dt = true) : intTypeFam dt = false := by
  cases hI : intTypeFam dt with
  | false => rfl
  | true =>
    exfalso
    rcases intConcrete dt hI with h1 | h1 | h1 | h1 <;> subst h1 <;> exact absurd h (by decide)

theorem arrNotTs (dt : String) (h : endsW dt "[]" = true) : tsTypeFam dt = false := by
  cases hI : tsTypeFam dt with
  | false => rfl
  | true =>
    exfalso
    rcases tsConcrete dt hI with h1 | h1 | h1 <;> subst h1 <;> exact absurd h (by decide)

theorem unknownParts (dt : String) (h : unknownTypeT dt = true) :
    intTypeFam dt = false ∧ textTypeFam dt = false ∧ numTypeFam dt = false ∧
    (dt == "boolean") = false ∧ tsTypeFam dt = false ∧ jsonTypeFam dt = false ∧
    (dt == "uuid") = false ∧ endsW dt "[]" = false := by
  simp only [unknownTypeT, Bool.and_eq_true, Bool.not_eq_true'] at h
  exact ⟨h.1.1.1.1.1.1.1, h.1.1.1.1.1.1.2, h.1.1.1.1.1.2, h.1.1.1.1.2,
    h.1.1.1.2, h.1.1.2, h.1.2, h.2⟩

theorem mlAtLeastMono (ml : Option Nat) (a b : Nat) (hab : a ≤ b) (h : mlAtLeast ml b = true) :
    mlAtLeast ml a = true := by
  match ml with
  | none => rfl
  | some 0 => rfl
  | some (m + 1) =>
    simp only [mlAtLeast, decide_eq_true_eq] at h ⊢
    omega

theorem validateVStrOk (dt : String) (ml : Option Nat) (s : String)
    (h : tsTypeFam dt = true ∨ jsonTypeFam dt = true ∨ unknownTypeT dt = true ∨
      (textTypeFam dt = true ∧ mlAtLeast ml s.length = true)) :
    validate_data_type (.vStr s) dt ml = (true, none) := by
  rcases h with h | h | h | ⟨ht, hml⟩
  · rcases tsConcrete dt h with h1 | h1 | h1 <;> subst h1 <;> rfl
  · rcases jsonConcrete dt h with h1 | h1 <;> subst h1 <;> rfl
  · obtain ⟨p1, p2, p3, p4, p5, p6, p7, p8⟩ := unknownParts dt h
    rw [validateVStrEq]
    simp [p1, p2, p3, p4, p5, p6, p7, p8]
  · have hint := textNotInt dt ht
    rw [validateVStrEq]
    cases ml with
    | none => simp [hint, ht]
    | some m =>
      cases m with
      | zero => simp [hint, ht]
      | succ m =>
        have hle : s.length ≤ m + 1 := by
          simpa only [mlAtLeast, decide_eq_true_eq] using hml
        have hgt : ¬ (s.length > m + 1) := by omega
        simp [hint, ht, hgt]

theorem validateVIntOk (dt : String) (ml : Option Nat) (n : Int)
    (h : intTypeFam dt = true ∨ numTypeFam dt = true ∨ jsonTypeFam dt = true ∨
      unknownTypeT dt = true) :
    validate_data_type (.vInt n) dt ml = (true, none) := by
  rcases h with h | h | h | h
  · rcases intConcrete dt h with h1 | h1 | h1 | h1 <;> subst h1 <;> rfl
  · rcases numConcrete dt h with h1 | h1 | h1 | h1 | h1 <;> subst h1 <;> rfl
  · rcases jsonConcrete dt h with h1 | h1 <;> subst h1 <;> rfl
  · obtain ⟨p1, p2, p3, p4, p5, p6, p7, p8⟩ := unknownParts dt h
    rw [validateVIntEq]
    simp [p1, p2, p3, p4, p5, p6, p7, p8]

theorem validateVFloatNum (dt : String) (ml : Option Nat) (p : Nat)
    (h : numTypeFam dt = true) : validate_data_type (.vFloat p) dt ml = (true, none) := by
  rcases numConcrete dt h with h1 | h1 | h1 | h1 | h1 <;> subst h1 <;> rfl

theorem validateVBoolBool (ml : Option Nat) (b : Bool) :
    validate_data_type (.vBool b) "boolean" ml = (true, none) := rfl

theorem validateMockDict (dt : String) (ml : Option Nat) (b1 b2 : Bool) (f : String) (n : Int)
    (h : jsonTypeFam dt = true) :
    validate_data_type (.vDict [("mock", .vBool b1), ("field", .vStr f),
      ("value", .vInt n), ("active", .vBool b2)]) dt ml = (true, none) := by
  rcases jsonConcrete dt h with h1 | h1 <;> subst h1 <;> rfl

theorem validateVStrUuid (ml : Option Nat) (s : String) (h : isUuidFormat s = true) :
    validate_data_type (.vStr s) "uuid" ml = (true, none) := by
  have e : validate_data_type (.vStr s) "uuid" ml =
      (if !isUuidFormat s then (false, some ("Invalid UUID format: " ++ s))
       else (true, none)) := rfl
  rw [e, h]
  rfl

theorem scalarValidates (o : Oracle) (k : Nat) (base : String)
    (hb : endsW base "[]" = false) :
    validate_data_type (generate_mock_scalar_value o k base none).1 base none = (true, none) := by
  unfold generate_mock_scalar_value
  cases h1 : intTypeFam base with
  | true =>
    simp only [h1, if_true]
    exact validateVIntOk base none _ (Or.inl h1)
  | false =>
    cases h2 : textTypeFam base with
    | true =>
      simp only [h1, h2, Bool.false_eq_true, if_false, if_true]
      exact validateVStrOk base none _ (Or.inr (Or.inr (Or.inr ⟨h2, rfl⟩)))
    | false =>
      cases h3 : numTypeFam base with
      | true =>
        simp only [h1, h2, h3, Bool.false_eq_true, if_false, if_true]
        exact validateVFloatNum base none _ h3
      | false =>
        cases h4 : base == "boolean" with
        | true =>
          have hb4 : base = "boolean" := by simpa using h4
          subst hb4
          simp only [h1, h2, h3, Bool.false_eq_true, if_false, beq_self_eq_true, if_true]
          exact validateVBoolBool none _
        | false =>
          cases h5 : base == "uuid" with
          | true =>
            have hb5 : base = "uuid" := by simpa using h5
            subst hb5
            simp only [h1, h2, h3, h4, Bool.false_eq_true, if_false, beq_self_eq_true, if_true]
            exact validateVStrUuid none _ (mkUuidFormat o k)
          | false =>
            simp only [h1, h2, h3, h4, h5, Bool.false_eq_true, if_false]
            cases h6 : tsTypeFam base with
            | true => exact validateVStrOk base none _ (Or.inl h6)
            | false =>
              cases h7 : jsonTypeFam base with
              | true => exact validateVStrOk base none _ (Or.inr (Or.inl h7))
              | false =>
                have hunk : unknownTypeT base = true := by
                  simp [unknownTypeT, h1, h2, h3, h4, h5, h6, h7, hb]
                exact validateVStrOk base none _ (Or.inr (Or.inr (Or.inl hunk)))

theorem genArrayElemsMem (o : Oracle) (base : String) :
    ∀ (n k : Nat), ∀ x ∈ (genArrayElems o base n k).1,
      ∃ k2, x = (generate_mock_scalar_value o k2 base none).1 := by
  intro n
  induction n with
  | zero => intro k x hx; cases hx
  | succ n ih =>
    intro k x hx
    simp only [genArrayElems, List.mem_cons] at hx
    rcases hx with he | hm
    · exact ⟨k, he⟩
    · exact ih _ x hm

theorem validateArrayElemsOk (base : String) :
    ∀ (xs : List PyVal), (∀ x ∈ xs, validate_data_type x base none = (true, none)) →
      validateArrayElems xs base = (true, none) := by
  intro xs
  induction xs with
  | nil => intro _; rfl
  | cons x rest ih =>
    intro h
    have hx := h x (List.mem_cons_self _ _)
    simp only [validateArrayElems, hx, Bool.not_true, Bool.false_eq_true, if_false]
    exact ih (fun y hy => h y (List.mem_cons_of_mem _ hy))

theorem validateVListArr (dt : String) (ml : Option Nat) (xs : List PyVal)
    (h1 : intTypeFam dt = false) (h2 : textTypeFam dt = false) (h3 : numTypeFam dt = false)
    (h4 : (dt == "boolean") = false) (h6 : jsonTypeFam dt = false)
    (h7 : (dt == "uuid") = false) (h8 : endsW dt "[]" = true)
    (hel : ∀ x ∈ xs, validate_data_type x (baseType dt) none = (true, none)) :
    validate_data_type (.vList xs) dt ml = (true, none) := by
  have h5 : tsTypeFam dt = false := arrNotTs dt h8
  rw [validateVListEq]
  simp only [h1, h2, h3, h4, h5, h6, h7, h8, Bool.false_eq_true, if_false, if_true]
  cases hxs : xs.isEmpty with
  | true => simp [hxs]
  | false =>
    simp only [hxs, Bool.false_eq_true, if_false]
    exact validateArrayElemsOk (baseType dt) xs hel

theorem lcStrLen (o : Oracle) (k n : Nat) : (String.mk (lcChars o k n)).length = n :=
  lcCharsLen o k n

theorem strCompatValidates (dt : String) (ml : Option Nat) (s : String) (bound : Nat)
    (h : strCompatT dt ml bound = true) (hl : s.length ≤ bound) :
    validate_data_type (.vStr s) dt ml = (true, none) := by
  have h2 : (textTypeFam dt = true ∧ mlAtLeast ml bound = true) ∨ tsTypeFam dt = true ∨
      jsonTypeFam dt = true ∨ unknownTypeT dt = true := by
    simpa only [strCompatT, Bool.or_eq_true, Bool.and_eq_true, or_assoc] using h
  rcases h2 with ⟨ht, hml⟩ | h2 | h2 | h2
  · exact validateVStrOk dt ml s (Or.inr (Or.inr (Or.inr ⟨ht, mlAtLeastMono ml _ _ hl hml⟩)))
  · exact validateVStrOk dt ml s (Or.inl h2)
  · exact validateVStrOk dt ml s (Or.inr (Or.inl h2))
  · exact validateVStrOk dt ml s (Or.inr (Or.inr (Or.inl h2)))

theorem genValueValidates (o : Oracle) (k : Nat) (name : String) (ci : ColInfo)
    (tbl : TableSchema) (h : mockCompatibleCol tbl name ci = true) :
    validate_data_type (generate_mock_value o k name ci tbl).1 ci.type ci.max_length
      = (true, none) := by
  unfold mockCompatibleCol at h
  unfold generate_mock_value
  cases hfk : List.lookup name tbl.foreign_keys with
  | some fk =>
    simp only [hfk] at h ⊢
    have hb := randintBounds o k 1000 9999 (by omega)
    have h4d := pyStrNatLen4 (randint o k 1000 9999) hb.1 (by omega)
    have hlen : ("mock-" ++ fk.table ++ "-ref-" ++ pyStrNat (randint o k 1000 9999)).length
        ≤ 14 + fk.table.length := by
      rw [String.length_append, String.length_append, String.length_append, h4d]
      have h5a : ("mock-" : String).length = 5 := rfl
      have h5b : ("-ref-" : String).length = 5 := rfl
      rw [h5a, h5b]
      omega
    exact strCompatValidates ci.type ci.max_length _ _ h hlen
  | none =>
    simp only [hfk] at h ⊢
    cases hid : (strLower name == "id" || endsW (strLower name) "_id") with
    | true =>
      simp only [hid, if_true] at h ⊢
      cases huu : ci.type == "uuid" with
      | true =>
        have he : ci.type = "uuid" := by simpa using huu
        simp only [huu, if_true]
        rw [he]
        exact validateVStrUuid ci.max_length _ (mkUuidFormat o k)
      | false =>
        simp only [huu, Bool.false_eq_true, if_false]
        have h2 : intTypeFam ci.type = true ∨ numTypeFam ci.type = true ∨
            jsonTypeFam ci.type = true ∨ unknownTypeT ci.type = true := by
          simpa only [huu, Bool.false_or, Bool.or_eq_true, or_assoc] using h
        exact validateVIntOk ci.type ci.max_length _ h2
    | false =>
      simp only [hid, Bool.false_eq_true, if_false] at h ⊢
      cases hnm : strHas (strLower name) "name" with
      | true =>
        simp only [hnm, if_true] at h ⊢
        have hpre := pyChoiceMem ["Test", "Mock", "Sample", "Demo", "Example"] "Test"
          (o.rand k) (by decide)
        have hpl : (pyChoice ["Test", "Mock", "Sample", "Demo", "Example"] "Test"
            (o.rand k)).length ≤ 7 := by
          have hall : ∀ p ∈ (["Test", "Mock", "Sample", "Demo", "Example"] : List String),
              p.length ≤ 7 := by decide
          exact hall _ hpre
        have hlen : (pyChoice ["Test", "Mock", "Sample", "Demo", "Example"] "Test" (o.rand k)
            ++ " " ++ pyTitle name).length ≤ name.length + 8 := by
          rw [String.length_append, String.length_append, pyTitleLen]
          have h1s : (" " : String).length = 1 := rfl
          rw [h1s]
          omega
        exact strCompatValidates ci.type ci.max_length _ _ h hlen
      | false =>
        simp only [hnm, Bool.false_eq_true, if_false] at h ⊢
        cases hdt : (strHas (strLower name) "date" || strHas (strLower name) "time" ||
            strHas (strLower name) "created" || strHas (strLower name) "updated") with
        | true =>
          simp only [hdt, if_true] at h ⊢
          have happ : ∀ s : String,
              validate_data_type (.vStr s) ci.type ci.max_length = (true, none) := by
            intro s
            have h2 : tsTypeFam ci.type = true ∨ jsonTypeFam ci.type = true ∨
                unknownTypeT ci.type = true ∨ (textTypeFam ci.type = true ∧
                  (ci.max_length == none) = true) := by
              simpa only [Bool.or_eq_true, Bool.and_eq_true, or_assoc] using h
            rcases h2 with h2 | h2 | h2 | ⟨h2, h3⟩
            · exact validateVStrOk ci.type ci.max_length s (Or.inl h2)
            · exact validateVStrOk ci.type ci.max_length s (Or.inr (Or.inl h2))
            · exact validateVStrOk ci.type ci.max_length s (Or.inr (Or.inr (Or.inl h2)))
            · have hn : ci.max_length = none := by simpa using h3
              rw [hn]
              exact validateVStrOk ci.type none s (Or.inr (Or.inr (Or.inr ⟨h2, rfl⟩)))
          cases hdd : ci.type == "date" with
          | true =>
            simp only [hdd, if_true]
            exact happ _
          | false =>
            simp only [hdd, Bool.false_eq_true, if_false]
            cases htt : ci.type == "time" with
            | true =>
              simp only [htt, if_true]
              exact happ _
            | false =>
              simp only [htt, Bool.false_eq_true, if_false]
              exact happ _
        | false =>
          simp only [hdt, Bool.false_eq_true, if_false] at h ⊢
          cases hst : strHas (strLower name) "status" with
          | true =>
            simp only [hst, if_true] at h ⊢
            have hmem := pyChoiceMem ["active", "inactive", "pending", "completed"] "active"
              (o.rand k) (by decide)
            have hlen : (pyChoice ["active", "inactive", "pending", "completed"] "active"
                (o.rand k)).length ≤ 9 := by
              have hall : ∀ p ∈ (["active", "inactive", "pending", "completed"] : List String),
                  p.length ≤ 9 := by decide
              exact hall _ hmem
            exact strCompatValidates ci.type ci.max_length _ _ h hlen
          | false =>
            simp only [hst, Bool.false_eq_true, if_false] at h ⊢
            cases hem : strHas (strLower name) "email" with
            | true =>
              simp only [hem, if_true] at h ⊢
              have hb := randintBounds o k 1000 9999 (by omega)
              have h4d := pyStrNatLen4 (randint o k 1000 9999) hb.1 (by omega)
              have hdm := pyChoiceMem ["example.com", "test.org", "mock.net", "sample.io"]
                "example.com" (o.rand (k + 1)) (by decide)
              have hdl : (pyChoice ["example.com", "test.org", "mock.net", "sample.io"]
                  "example.com" (o.rand (k + 1))).length ≤ 11 := by
                have hall : ∀ p ∈ (["example.com", "test.org", "mock.net", "sample.io"] :
                    List String), p.length ≤ 11 := by decide
                exact hall _ hdm
              have hlen : ("mock.user." ++ pyStrNat (randint o k 1000 9999) ++ "@" ++
                  pyChoice ["example.com", "test.org", "mock.net", "sample.io"] "example.com"
                    (o.rand (k + 1))).length ≤ 26 := by
                rw [String.length_append, String.length_append, String.length_append, h4d]
                have hu : ("mock.user." : String).length = 10 := rfl
                have ha : ("@" : String).length = 1 := rfl
                rw [hu, ha]
                omega
              exact strCompatValidates ci.type ci.max_length _ _ h hlen
            | false =>
              simp only [hem, Bool.false_eq_true, if_false] at h ⊢
              cases hur : (strHas (strLower name) "url" || strHas (strLower name) "link" ||
                  strHas (strLower name) "website") with
              | true =>
                simp only [hur, if_true] at h ⊢
                have hdm := pyChoiceMem ["example.com", "test.org", "mock.net", "sample.io"]
                  "example.com" (o.rand k) (by decide)
                have hdl : (pyChoice ["example.com", "test.org", "mock.net", "sample.io"]
                    "example.com" (o.rand k)).length ≤ 11 := by
                  have hall : ∀ p ∈ (["example.com", "test.org", "mock.net", "sample.io"] :
                      List String), p.length ≤ 11 := by decide
                  exact hall _ hdm
                have hpm := pyChoiceMem ["home", "about", "contact", "product", "service"]
                  "home" (o.rand (k + 1)) (by decide)
                have hpl : (pyChoice ["home", "about", "contact", "product", "service"]
                    "home" (o.rand (k + 1))).length ≤ 7 := by
                  have hall : ∀ p ∈ (["home", "about", "contact", "product", "service"] :
                      List String), p.length ≤ 7 := by decide
                  exact hall _ hpm
                have hlen : ("https://" ++ pyChoice ["example.com", "test.org", "mock.net",
                    "sample.io"] "example.com" (o.rand k) ++ "/" ++
                    pyChoice ["home", "about", "contact", "product", "service"] "home"
                      (o.rand (k + 1))).length ≤ 27 := by
                  rw [String.length_append, String.length_append, String.length_append]
                  have hh : ("https://" : String).length = 8 := rfl
                  have hs1 : ("/" : String).length = 1 := rfl
                  rw [hh, hs1]
                  omega
                exact strCompatValidates ci.type ci.max_length _ _ h hlen
              | false =>
                simp only [hur, Bool.false_eq_true, if_false] at h ⊢
                cases hint : intTypeFam ci.type with
                | true =>
                  simp only [hint, if_true]
                  exact validateVIntOk ci.type ci.max_length _ (Or.inl hint)
                | false =>
                  simp only [hint, Bool.false_eq_true, if_false] at h ⊢
                  cases htx : textTypeFam ci.type with
                  | true =>
                    simp only [htx, if_true] at h ⊢
                    cases hml2 : ci.max_length with
                    | none =>
                      rw [hml2] at h
                      exact validateVStrOk ci.type none _ (Or.inr (Or.inr (Or.inr ⟨htx, rfl⟩)))
                    | some m =>
                      rw [hml2] at h
                      cases m with
                      | zero =>
                        exact validateVStrOk ci.type (some 0) _
                          (Or.inr (Or.inr (Or.inr ⟨htx, rfl⟩)))
                      | succ m =>
                        have hle : name.length + 6 ≤ m + 1 := by simpa using h
                        refine validateVStrOk ci.type (some (m + 1)) _
                          (Or.inr (Or.inr (Or.inr ⟨htx, ?_⟩)))
                        have hvl : ("mock-" ++ name ++ "-" ++
                            (⟨lcChars o k (min (pyOrNat (some (m + 1)) 50) 50 -
                              (name.length + 6))⟩ : String)).length
                            = name.length + 6 + (min (pyOrNat (some (m + 1)) 50) 50 -
                              (name.length + 6)) := by
                          rw [String.length_append, String.length_append, String.length_append,
                            lcStrLen]
                          have hm5 : ("mock-" : String).length = 5 := rfl
                          have hd1 : ("-" : String).length = 1 := rfl
                          rw [hm5, hd1]
                          omega
                        have hpo : pyOrNat (some (m + 1)) 50 = m + 1 := rfl
                        simp only [mlAtLeast, decide_eq_true_eq]
                        rw [hvl, hpo]
                        omega
                  | false =>
                    simp only [htx, Bool.false_eq_true, if_false] at h ⊢
                    cases hnum : numTypeFam ci.type with
                    | true =>
                      simp only [hnum, if_true]
                      exact validateVFloatNum ci.type ci.max_length _ hnum
                    | false =>
                      simp only [hnum, Bool.false_eq_true, if_false] at h ⊢
                      cases hbl : ci.type == "boolean" with
                      | true =>
                        have he : ci.type = "boolean" := by simpa using hbl
                        simp only [hbl, if_true]
                        rw [he]
                        exact validateVBoolBool ci.max_length _
                      | false =>
                        simp only [hbl, Bool.false_eq_true, if_false] at h ⊢
                        cases hjs : jsonTypeFam ci.type with
                        | true =>
                          simp only [hjs, if_true]
                          exact validateMockDict ci.type ci.max_length _ _ _ _ hjs
                        | false =>
                          simp only [hjs, Bool.false_eq_true, if_false] at h ⊢
                          cases huu2 : ci.type == "uuid" with
                          | true =>
                            have he : ci.type = "uuid" := by simpa using huu2
                            simp only [huu2, if_true]
                            rw [he]
                            exact validateVStrUuid ci.max_length _ (mkUuidFormat o k)
                          | false =>
                            simp only [huu2, Bool.false_eq_true, if_false] at h ⊢
                            cases harr : endsW ci.type "[]" with
                            | true =>
                              simp only [harr, if_true] at h ⊢
                              have hbase : endsW (baseType ci.type) "[]" = false := by
                                simpa using h
                              refine validateVListArr ci.type ci.max_length _
                                hint htx hnum hbl hjs huu2 harr ?_
                              intro x hx
                              obtain ⟨k2, hk2⟩ :=
                                genArrayElemsMem o (baseType ci.type) _ _ x hx
                              rw [hk2]
                              exact scalarValidates o k2 (baseType ci.type) hbase
                            | false =>
                              simp only [harr, Bool.false_eq_true, if_false]
                              cases hts : tsTypeFam ci.type with
                              | true =>
                                exact validateVStrOk ci.type ci.max_length _ (Or.inl hts)
                              | false =>
                                have hunk : unknownTypeT ci.type = true := by
                                  simp [unknownTypeT, hint, htx, hnum, hbl, hjs, huu2,
                                    harr, hts]
                                exact validateVStrOk ci.type ci.max_length _
                                  (Or.inr (Or.inr (Or.inl hunk)))

/-! ### The synthesis loop: coverage and soundness of the produced row -/

theorem dictSetHasKeyMono (d : PyDict) (m : String) (w : PyVal) (n : String)
    (h : dictHasKey d n = true) : dictHasKey (dictSet d m w) n = true := by
  rw [dictHasKeyEqKeysContains] at h ⊢
  rw [dictSetKeys]
  by_cases hc : (d.map Prod.fst).contains m = true
  · rw [if_pos hc]; exact h
  · rw [if_neg hc]
    have hm : n ∈ d.map Prod.fst := by simpa using h
    simp [hm]

theorem dictSetHasKeySelf (d : PyDict) (m : String) (w : PyVal) :
    dictHasKey (dictSet d m w) m = true := by
  rw [dictHasKeyEqKeysContains, dictSetKeys]
  by_cases hc : (d.map Prod.fst).contains m = true
  · rw [if_pos hc]; exact hc
  · rw [if_neg hc]; simp

theorem genLoopPreserve (o : Oracle) (tbl : TableSchema) :
    ∀ (cols : List (String × ColInfo)) (acc : PyDict) (k : Nat) (n : String),
      dictHasKey acc n = true → dictHasKey (generateMockDataLoop o tbl cols acc k) n = true := by
  intro cols
  induction cols with
  | nil => intro acc k n h; exact h
  | cons p rest ih =>
    intro acc k n h
    obtain ⟨cn, ci⟩ := p
    by_cases h1 : dictHasKey acc cn = true
    · simp only [generateMockDataLoop, h1, if_true]
      exact ih _ _ n h
    · have h1f : dictHasKey acc cn = false := by simpa using h1
      by_cases h2 : is_auto_generated ci = true
      · simp only [generateMockDataLoop, h1f, Bool.false_eq_true, if_false, h2, if_true]
        exact ih _ _ n h
      · have h2f : is_auto_generated ci = false := by simpa using h2
        simp only [generateMockDataLoop, h1f, h2f, Bool.false_eq_true, if_false]
        exact ih _ _ n (dictSetHasKeyMono acc cn _ n h)

theorem genLoopCovers (o : Oracle) (tbl : TableSchema) :
    ∀ (cols : List (String × ColInfo)) (acc : PyDict) (k : Nat) (n : String) (ci : ColInfo),
      (n, ci) ∈ cols → is_auto_generated ci = false →
      dictHasKey (generateMockDataLoop o tbl cols acc k) n = true := by
  intro cols
  induction cols with
  | nil => intro acc k n ci h _; cases h
  | cons q rest ih =>
    intro acc k n ci hmem hauto
    obtain ⟨cn, ci2⟩ := q
    rcases List.mem_cons.mp hmem with he | hm
    · injection he with e1 e2
      subst e1
      subst e2
      by_cases h1 : dictHasKey acc n = true
      · simp only [generateMockDataLoop, h1, if_true]
        exact genLoopPreserve o tbl rest acc k n h1
      · have h1f : dictHasKey acc n = false := by simpa using h1
        simp only [generateMockDataLoop, h1f, hauto, Bool.false_eq_true, if_false]
        exact genLoopPreserve o tbl rest _ _ n (dictSetHasKeySelf acc n _)
    · by_cases h1 : dictHasKey acc cn = true
      · simp only [generateMockDataLoop, h1, if_true]
        exact ih _ _ n ci hm hauto
      · have h1f : dictHasKey acc cn = false := by simpa using h1
        by_cases h2 : is_auto_generated ci2 = true
        · simp only [generateMockDataLoop, h1f, Bool.false_eq_true, if_false, h2, if_true]
          exact ih _ _ n ci hm hauto
        · have h2f : is_auto_generated ci2 = false := by simpa using h2
          simp only [generateMockDataLoop, h1f, h2f, Bool.false_eq_true, if_false]
          exact ih _ _ n ci hm hauto

theorem dictSetMem (m : String) (w : PyVal) :
    ∀ (d : PyDict) (p : String × PyVal), p ∈ dictSet d m w → p ∈ d ∨ p = (m, w) := by
  intro d
  induction d with
  | nil =>
    intro p hp
    simp only [dictSet] at hp
    right
    simpa using hp
  | cons kv rest ih =>
    intro p hp
    obtain ⟨k2, v2⟩ := kv
    by_cases hb : (k2 == m) = true
    · simp only [dictSet, hb, if_true] at hp
      rcases List.mem_cons.mp hp with he | hm2
      · right; exact he
      · left; exact List.mem_cons_of_mem _ hm2
    · have hbf : (k2 == m) = false := by simpa using hb
      simp only [dictSet, hbf, Bool.false_eq_true, if_false] at hp
      rcases List.mem_cons.mp hp with he | hm2
      · left; rw [he]; exact List.mem_cons_self _ _
      · rcases ih p hm2 with h | h
        · left; exact List.mem_cons_of_mem _ h
        · right; exact h

theorem genLoopSound (o : Oracle) (tbl : TableSchema) :
    ∀ (cols : List (String × ColInfo)) (acc : PyDict) (k : Nat) (p : String × PyVal),
      p ∈ generateMockDataLoop o tbl cols acc k →
      p ∈ acc ∨ ∃ ci k2, (p.1, ci) ∈ cols ∧ is_auto_generated ci = false ∧
        p.2 = (generate_mock_value o k2 p.1 ci tbl).1 := by
  intro cols
  induction cols with
  | nil => intro acc k p hp; left; exact hp
  | cons q rest ih =>
    intro acc k p hp
    obtain ⟨cn, ci2⟩ := q
    by_cases h1 : dictHasKey acc cn = true
    · simp only [generateMockDataLoop, h1, if_true] at hp
      rcases ih _ _ p hp with h | ⟨ci, k2, hmem, hau, hv⟩
      · left; exact h
      · right; exact ⟨ci, k2, List.mem_cons_of_mem _ hmem, hau, hv⟩
    · have h1f : dictHasKey acc cn = false := by simpa using h1
      by_cases h2 : is_auto_generated ci2 = true
      · simp only [generateMockDataLoop, h1f, Bool.false_eq_true, if_false, h2, if_true] at hp
        rcases ih _ _ p hp with h | ⟨ci, k2, hmem, hau, hv⟩
        · left; exact h
        · right; exact ⟨ci, k2, List.mem_cons_of_mem _ hmem, hau, hv⟩
      · have h2f : is_auto_generated ci2 = false := by simpa using h2
        simp only [generateMockDataLoop, h1f, h2f, Bool.false_eq_true, if_false] at hp
        rcases ih _ _ p hp with h | ⟨ci, k2, hmem, hau, hv⟩
        · rcases dictSetMem cn _ acc p h with h3 | h3
          · left; exact h3
          · right
            refine ⟨ci2, k, ?_, h2f, ?_⟩
            · rw [h3]
              exact List.mem_cons_self _ _
            · rw [h3]
        · right; exact ⟨ci, k2, List.mem_cons_of_mem _ hmem, hau, hv⟩

theorem lookupOfMemNodup {β : Type} :
    ∀ (l : List (String × β)) (n : String) (b : β),
      (n, b) ∈ l → (l.map Prod.fst).Nodup → List.lookup n l = some b := by
  intro l
  induction l with
  | nil => intro n b h _; cases h
  | cons q rest ih =>
    intro n b hmem hnd
    obtain ⟨m, c⟩ := q
    rcases List.mem_cons.mp hmem with he | hm
    · injection he with e1 e2
      subst e1
      subst e2
      simp [List.lookup]
    · have hne : (n == m) = false := by
        have hnm : m ∉ (rest.map Prod.fst) := by
          simp only [List.map_cons, List.nodup_cons] at hnd
          exact hnd.1
        have hn2 : n ∈ rest.map Prod.fst := List.mem_map_of_mem Prod.fst hm
        have hd : n ≠ m := fun e => hnm (e ▸ hn2)
        simpa using hd
      simp only [List.lookup, hne]
      refine ih n b hm ?_
      simp only [List.map_cons, List.nodup_cons] at hnd
      exact hnd.2

theorem genValueNeNone (o : Oracle) (k : Nat) (name : String) (ci : ColInfo)
    (tbl : TableSchema) : isNoneVal (generate_mock_value o k name ci tbl).1 = false := by
  unfold generate_mock_value
  cases hfk : List.lookup name tbl.foreign_keys with
  | some fk => simp only [hfk]; rfl
  | none =>
    simp only [hfk]
    cases hid : (strLower name == "id" || endsW (strLower name) "_id") with
    | true =>
      simp only [hid, if_true]
      cases huu : ci.type == "uuid" with
      | true => simp only [huu, if_true]; rfl
      | false => simp only [huu, Bool.false_eq_true, if_false]; rfl
    | false =>
      simp only [hid, Bool.false_eq_true, if_false]
      cases hnm : strHas (strLower name) "name" with
      | true => simp only [hnm, if_true]; rfl
      | false =>
        simp only [hnm, Bool.false_eq_true, if_false]
        cases hdt : (strHas (strLower name) "date" || strHas (strLower name) "time" ||
            strHas (strLower name) "created" || strHas (strLower name) "updated") with
        | true =>
          simp only [hdt, if_true]
          cases hdd : ci.type == "date" with
          | true => simp only [hdd, if_true]; rfl
          | false =>
            simp only [hdd, Bool.false_eq_true, if_false]
            cases htt : ci.type == "time" with
            | true => simp only [htt, if_true]; rfl
            | false => simp only [htt, Bool.false_eq_true, if_false]; rfl
        | false =>
          simp only [hdt, Bool.false_eq_true, if_false]
          cases hst : strHas (strLower name) "status" with
          | true => simp only [hst, if_true]; rfl
          | false =>
            simp only [hst, Bool.false_eq_true, if_false]
            cases hem : strHas (strLower name) "email" with
            | true => simp only [hem, if_true]; rfl
            | false =>
              simp only [hem, Bool.false_eq_true, if_false]
              cases hur : (strHas (strLower name) "url" || strHas (strLower name) "link" ||
                  strHas (strLower name) "website") with
              | true => simp only [hur, if_true]; rfl
              | false =>
                simp only [hur, Bool.false_eq_true, if_false]
                cases hint : intTypeFam ci.type with
                | true => simp only [hint, if_true]; rfl
                | false =>
                  simp only [hint, Bool.false_eq_true, if_false]
                  cases htx : textTypeFam ci.type with
                  | true => simp only [htx, if_true]; rfl
                  | false =>
                    simp only [htx, Bool.false_eq_true, if_false]
                    cases hnum : numTypeFam ci.type with
                    | true => simp only [hnum, if_true]; rfl
                    | false =>
                      simp only [hnum, Bool.false_eq_true, if_false]
                      cases hbl : ci.type == "boolean" with
                      | true => simp only [hbl, if_true]; rfl
                      | false =>
                        simp only [hbl, Bool.false_eq_true, if_false]
                        cases hjs : jsonTypeFam ci.type with
                        | true => simp only [hjs, if_true]; rfl
                        | false =>
                          simp only [hjs, Bool.false_eq_true, if_false]
                          cases huu2 : ci.type == "uuid" with
                          | true => simp only [huu2, if_true]; rfl
                          | false =>
                            simp only [huu2, Bool.false_eq_true, if_false]
                            cases harr : endsW ci.type "[]" with
                            | true => simp only [harr, if_true]; rfl
                            | false => simp only [harr, Bool.false_eq_true, if_false]; rfl

theorem requiredNotAuto (ci : ColInfo) (h : isRequiredCol ci = true) :
    is_auto_generated ci = false := by
  simp only [isRequiredCol, Bool.and_eq_true, Bool.not_eq_true'] at h
  exact h.2

/-- C1 (amended): a row synthesized by `MockDataGenerator.generate_row`
with no overrides passes `SchemaRegistry.validate_insert_data` for every
registered table whose column names are distinct and whose every column is
either auto-generated (skipped by the synthesizer) or mock-compatible —
i.e. its declared type and `max_length` accept the shape the synthesizer
picks from the column's foreign-key status, name hints, and declared type.
The claim's universal form is refuted by `C1_counterexample`: a
foreign-key column declared `integer` receives a reference-looking string
and the validation fails. -/
theorem C1_mock_rows_validate
    (env : SchemaEnv) (r : Registry) (schema table : String)
    (tables : List (String × TableSchema)) (tbl : TableSchema) (o : Oracle)
    (hinit : r.initialized = true)
    (hs : List.lookup schema r.table_schemas = some tables)
    (ht : List.lookup table tables = some tbl)
    (hnd : (tbl.columns.map Prod.fst).Nodup)
    (hcols : ∀ p ∈ tbl.columns,
      is_auto_generated p.2 = true ∨ mockCompatibleCol tbl p.1 p.2 = true) :
    validate_insert_data env r schema table
      (generate_row env r schema table none o) = .ok (true, none) := by
  have hgts : get_table_schema env r schema table = .ok (r, tbl) := by
    unfold get_table_schema initializeE
    simp [hinit, hs, ht]
  have hdata : generate_mock_data env r schema table none o =
      .ok (r, generateMockDataLoop o tbl tbl.columns [] 0) := by
    unfold generate_mock_data
    rw [hgts]
  have hval : validate_insert_data env r schema table
      (generateMockDataLoop o tbl tbl.columns [] 0) = .ok (true, none) := by
    unfold validate_insert_data
    rw [hgts]
    simp only []
    have hrcm : requiredColMissing (generateMockDataLoop o tbl tbl.columns [] 0)
        tbl.columns = none := by
      rw [rcmNoneIff]
      intro p hp hreq
      exact genLoopCovers o tbl tbl.columns [] 0 p.1 p.2 hp (requiredNotAuto p.2 hreq)
    rw [hrcm]
    have hloop : validateValuesLoop tbl.columns
        (generateMockDataLoop o tbl tbl.columns [] 0) = (true, none) := by
      apply validateValuesLoopOk
      intro kv hkv
      rcases genLoopSound o tbl tbl.columns [] 0 kv hkv with h0 | ⟨ci, k2, hmem, hau, hv⟩
      · cases h0
      · refine ⟨ci, lookupOfMemNodup tbl.columns kv.1 ci hmem hnd, Or.inr ⟨?_, ?_⟩⟩
        · rw [hv]
          exact genValueNeNone o k2 kv.1 ci tbl
        · rw [hv]
          rcases hcols (kv.1, ci) hmem with hA | hC
          · rw [hau] at hA
            cases hA
          · rw [genValueValidates o k2 kv.1 ci tbl hC]
    rw [hloop]
  have hrow : generate_row env r schema table none o =
      generateMockDataLoop o tbl tbl.columns [] 0 := by
    unfold generate_row
    rw [hdata]
    simp only []
    rw [hval]
  rw [hrow]
  exact hval

/-- C1 counterexample: on the registered table `s.t` whose sole column
`ref_col` is a declared foreign key of type `integer`, the synthesizer
emits the reference-looking string `mock-parent-ref-1000` (not a real
lookup), which `validate_insert_data` then rejects as a type mismatch, so
`validate_insert_data(schema, table, generate_row(schema, table))` does
not return `(true, null)`. -/
theorem C1_counterexample :
    generate_row envUnreachable regFkInt "s" "t" none oracleZero =
      [("ref_col", .vStr "mock-parent-ref-1000")] ∧
    validate_insert_data envUnreachable regFkInt "s" "t"
        (generate_row envUnreachable regFkInt "s" "t" none oracleZero) =
      .ok (false, some "Invalid value for column ref_col: Expected integer, got str") ∧
    (.ok (false, some "Invalid value for column ref_col: Expected integer, got str") :
        Except PyErr (Bool × Option String)) ≠ .ok (true, none) := by
  refine ⟨rfl, rfl, ?_⟩
  intro hc
  simp at hc

/-- Closed instantiation of the amended C1 theorem on the nine-column
registered table `s.t` of `regC1`, with every hypothesis discharged by
evaluation. -/
theorem C1_mock_rows_validate_witness :
    validate_insert_data envUnreachable regC1 "s" "t"
      (generate_row envUnreachable regC1 "s" "t" none oracleZero) = .ok (true, none) :=
  C1_mock_rows_validate envUnreachable regC1 "s" "t" [("t", tblC1)] tblC1 oracleZero
    rfl rfl rfl (by decide) (by decide)
